import Mathlib

set_option maxRecDepth 100000

/-!
Shallow embedding of the world-state engine of `zork_expanded.py`
(single-file Python implementation of a Zork-like interactive-fiction
engine).  The data model (`Direction`, `VerbType`, flag bit masks,
`GameObject`, `Room`, `Actor`, `ParsedCommand`, `GameState`) and the
operations (`_is_visible`, `_find_object`, `_parse_command`,
`_execute_command`, `_take`, `_drop`, `_open`, `_unlock`, `_go`,
`_look`, `_death`, `_check_light`, save/restore) are translated
directly from the source.  Python dictionaries are modelled as
association lists preserving insertion order; dictionary subscript
lookups that can raise `KeyError` are modelled with `Option`, a `none`
result standing for an uncaught exception.  The random number
generator is an explicit stream `Nat -> Nat`.  Printing is modelled by
returning the list of printed strings, one entry per `print` call.
-/

/-- The `Direction` enum of the source. -/
inductive Direction where
  | NORTH | SOUTH | EAST | WEST | NE | NW | SE | SW
  | UP | DOWN | IN | OUT | LAND
deriving DecidableEq

/-- The `VerbType` enum of the source. -/
inductive VerbType where
  | TAKE | DROP | OPEN | CLOSE | LIGHT | EXTINGUISH | MOVE | ATTACK
  | EXAMINE | READ | THROW | PUT | TURN | JUMP | INVENTORY | QUIT
  | SAVE | RESTORE | RESTART | VERBOSE | BRIEF | SCORE | VERSION
  | LOOK | WAIT | AGAIN | ENTER | EXIT | CLIMB | GIVE | DRINK | EAT
  | BREAK | KILL | WAVE | RAISE | LOWER | TURN_ON | TURN_OFF
  | DIAGNOSE | UNLOCK | LOCK | TIE | UNTIE | BURN | RING | WIND
  | DIG | FILL | POUR | PRAY | PUSH
deriving DecidableEq

/-- Object flag bit masks (`ObjectFlag` enum of the source). -/
def ObjectFlag.VISIBLE : Nat := 0x0001
def ObjectFlag.TAKEABLE : Nat := 0x0002
def ObjectFlag.CONTAINER : Nat := 0x0008
def ObjectFlag.OPEN : Nat := 0x0010
def ObjectFlag.CLOSED : Nat := 0x0020
def ObjectFlag.LOCKED : Nat := 0x0040
def ObjectFlag.LIGHT : Nat := 0x0080
def ObjectFlag.READABLE : Nat := 0x0100
def ObjectFlag.DOOR : Nat := 0x0200
def ObjectFlag.TRANSPARENT : Nat := 0x0400
def ObjectFlag.WEAPON : Nat := 0x0800
def ObjectFlag.TURNNABLE : Nat := 0x1000
def ObjectFlag.TURNEDON : Nat := 0x2000
def ObjectFlag.EDIBLE : Nat := 0x4000
def ObjectFlag.DRINKABLE : Nat := 0x8000
def ObjectFlag.TREASURE : Nat := 0x10000
def ObjectFlag.VEHICLE : Nat := 0x20000
def ObjectFlag.SACRED : Nat := 0x40000
def ObjectFlag.TOOL : Nat := 0x80000
def ObjectFlag.FLAMMABLE : Nat := 0x100000

/-- Room flag bit masks (`RoomFlag` enum of the source). -/
def RoomFlag.LIT : Nat := 0x0001
def RoomFlag.DEATH : Nat := 0x0002
def RoomFlag.SACRED : Nat := 0x0008
def RoomFlag.NOPIRATE : Nat := 0x0010
def RoomFlag.ONWATER : Nat := 0x0020

/-- The `flags & flag.value` as a Boolean (`has_flag` of the source). -/
def hasFlag (flags mask : Nat) : Bool := flags &&& mask != 0

/-- The `flags |= flag.value` (`set_flag(flag, True)` of the source). -/
def setFlagBit (flags mask : Nat) : Nat := flags ||| mask

/-- The `flags &= ~flag.value` (`set_flag(flag, False)` of the source);
for a bit mask this removes exactly the masked bits. -/
def clearFlagBit (flags mask : Nat) : Nat := flags - (flags &&& mask)

/-- The `GameObject` dataclass of the source. -/
structure GameObject where
  id : String
  name : String
  description : String := ""
  examine_text : String := ""
  initial_text : String := ""
  flags : Nat := 0
  location : Option String := none
  capacity : Nat := 0
  size : Nat := 0
  value : Nat := 0
deriving DecidableEq

/-- The `Room` dataclass of the source; the (ordered) exit dictionary is an
association list. -/
structure Room where
  id : String
  name : String
  description : String := ""
  flags : Nat := 0
  exits : List (Direction × String) := []
deriving DecidableEq

/-- The `Actor` dataclass of the source. -/
structure Actor where
  id : String
  name : String
  description : String
  location : Option String
  health : Int := 100
  hostile : Bool := false
  active : Bool := true
  messages : List (String × String) := []
deriving DecidableEq

/-- The `ParsedCommand` dataclass of the source. -/
structure ParsedCommand where
  verb : Option VerbType := none
  direct_object : Option String := none
  indirect_object : Option String := none
  direction : Option Direction := none
  raw_input : String := ""
deriving DecidableEq

/-! ### Association-list operations modelling Python dictionaries
Python dictionaries preserve insertion order and have unique keys;
`d[k]` raises `KeyError` when the key is absent (modelled by `aget`
returning `none`), `d[k] = v` overwrites in place or appends a fresh
key at the end, `del d[k]` removes the key. -/

/-- Dictionary lookup: `d[k]` / `d.get(k)`. -/
def aget {α : Type} : List (String × α) → String → Option α
  | [], _ => none
  | (k, v) :: t, q => if k = q then some v else aget t q

/-- Lookup in a dictionary keyed by `Direction`. -/
def dget {α : Type} : List (Direction × α) → Direction → Option α
  | [], _ => none
  | (k, v) :: t, q => if k = q then some v else dget t q

/-- In-place field mutation `d[k].f = v` of dictionary entry `k`:
every entry keeps its position, the entry keyed `k` is updated. -/
def amod {α : Type} : List (String × α) → String → (α → α) → List (String × α)
  | [], _, _ => []
  | p :: t, k, f => (if p.1 = k then (p.1, f p.2) else p) :: amod t k f

/-- Assignment `d[k] = v` on a `Direction`-keyed dictionary: overwrite
the existing key in place, else append it at the end. -/
def dput : List (Direction × String) → Direction → String → List (Direction × String)
  | [], k, v => [(k, v)]
  | p :: t, k, v => if p.1 = k then (k, v) :: t else p :: dput t k v

/-- The `del d[k]` on a `Direction`-keyed dictionary. -/
def ddel (l : List (Direction × String)) (k : Direction) :
    List (Direction × String) :=
  l.filter (fun p => p.1 ≠ k)

/-- The `del d[k]` on a `String`-keyed dictionary. -/
def adel {α : Type} (l : List (String × α)) (k : String) :
    List (String × α) :=
  l.filter (fun p => p.1 ≠ k)

/-- Python `set.add` on a set modelled as a duplicate-free list. -/
def visitedAdd (l : List String) (x : String) : List String :=
  if l.contains x then l else l ++ [x]


/-- The room dictionary built by `_init_rooms` (translated field by field from the source; flag expressions evaluated to their numeric values). -/
def initRoomsPart1 : List (String × Room) := [
  ("west_of_house",
   { id := "west_of_house",
     name := "West of House",
     description := "You are standing in an open field west of a white house, with a boarded front door.",
     flags := 17,
     exits := [(Direction.NORTH, "north_of_house"), (Direction.SOUTH, "south_of_house"), (Direction.WEST, "forest_1"), (Direction.EAST, "west_of_house")]}),
  ("north_of_house",
   { id := "north_of_house",
     name := "North of House",
     description := "You are facing the north side of a white house. There is no door here, and all the windows are boarded up. To the north a narrow path winds through the trees.",
     flags := 17,
     exits := [(Direction.WEST, "west_of_house"), (Direction.EAST, "behind_house"), (Direction.NORTH, "forest_path")]}),
  ("behind_house",
   { id := "behind_house",
     name := "Behind House",
     description := "You are behind the white house. A path leads into the forest to the east. In one corner of the house there is a small window which is slightly ajar.",
     flags := 17,
     exits := [(Direction.NORTH, "north_of_house"), (Direction.SOUTH, "south_of_house"), (Direction.EAST, "clearing"), (Direction.WEST, "kitchen"), (Direction.IN, "kitchen")]}),
  ("south_of_house",
   { id := "south_of_house",
     name := "South of House",
     description := "You are facing the south side of a white house. There is no door here, and all the windows are boarded.",
     flags := 17,
     exits := [(Direction.WEST, "west_of_house"), (Direction.EAST, "behind_house"), (Direction.SOUTH, "forest_1")]}),
  ("kitchen",
   { id := "kitchen",
     name := "Kitchen",
     description := "You are in the kitchen of the white house. A table seems to have been used recently for the preparation of food. A passage leads to the west and a dark staircase can be seen leading upward. A dark chimney leads down and to the east is a small window which is open.",
     flags := 17,
     exits := [(Direction.EAST, "behind_house"), (Direction.WEST, "living_room"), (Direction.UP, "attic"), (Direction.DOWN, "studio"), (Direction.OUT, "behind_house")]}),
  ("living_room",
   { id := "living_room",
     name := "Living Room",
     description := "You are in the living room. There is a doorway to the east, a wooden door with strange gothic lettering to the west, which appears to be nailed shut, a trophy case, and a large oriental rug in the center of the room.",
     flags := 17,
     exits := [(Direction.EAST, "kitchen"), (Direction.WEST, "strange_passage")]}),
  ("attic",
   { id := "attic",
     name := "Attic",
     description := "This is the attic. The only exit is a stairway leading down.",
     flags := 17,
     exits := [(Direction.DOWN, "kitchen")]}),
  ("forest_1",
   { id := "forest_1",
     name := "Forest",
     description := "This is a forest, with trees in all directions. To the east, there appears to be sunlight.",
     flags := 17,
     exits := [(Direction.NORTH, "clearing"), (Direction.EAST, "forest_path"), (Direction.SOUTH, "forest_3"), (Direction.WEST, "forest_1"), (Direction.UP, "up_tree")]}),
  ("forest_path",
   { id := "forest_path",
     name := "Forest Path",
     description := "This is a path winding through a dimly lit forest. The path heads north-south here. One particularly large tree with some low branches stands at the edge of the path.",
     flags := 17,
     exits := [(Direction.SOUTH, "north_of_house"), (Direction.NORTH, "clearing"), (Direction.UP, "up_tree")]}),
  ("up_tree",
   { id := "up_tree",
     name := "Up a Tree",
     description := "You are about 10 feet above the ground nestled among some large branches. The nearest branch above you is above your reach.",
     flags := 17,
     exits := [(Direction.DOWN, "forest_path")]}),
  ("forest_2",
   { id := "forest_2",
     name := "Forest",
     description := "This is a dimly lit forest, with large trees all around.",
     flags := 17,
     exits := [(Direction.SOUTH, "clearing"), (Direction.NORTH, "clearing"), (Direction.EAST, "canyon_view"), (Direction.WEST, "forest_3")]}),
  ("forest_3",
   { id := "forest_3",
     name := "Forest",
     description := "This is a dimly lit forest, with large trees all around.",
     flags := 17,
     exits := [(Direction.NORTH, "south_of_house"), (Direction.WEST, "forest_1"), (Direction.EAST, "forest_2"), (Direction.SOUTH, "forest_3")]}),
  ("clearing",
   { id := "clearing",
     name := "Clearing",
     description := "You are in a clearing, with a forest surrounding you on all sides. A path leads south.",
     flags := 17,
     exits := [(Direction.SOUTH, "forest_path"), (Direction.NORTH, "forest_2"), (Direction.EAST, "canyon_view"), (Direction.WEST, "behind_house"), (Direction.DOWN, "grating_room")]}),
  ("canyon_view",
   { id := "canyon_view",
     name := "Canyon View",
     description := "You are at the top of the Great Canyon on its west side. From here there is a marvelous view of the canyon and parts of the Frigid River upstream. Across the canyon, the walls of the White Cliffs join the mighty ramparts of the Flathead Mountains to the east. Following the Canyon upstream to the north, Aragain Falls may be seen, complete with rainbow. The mighty Frigid River flows out from a great dark cavern. To the west and south can be seen an immense forest, stretching for miles around. A path leads northwest. It is possible to climb down into the canyon from here.",
     flags := 17,
     exits := [(Direction.WEST, "forest_2"), (Direction.DOWN, "rocky_ledge"), (Direction.NW, "clearing")]}),
  ("rocky_ledge",
   { id := "rocky_ledge",
     name := "Rocky Ledge",
     description := "You are on a ledge about halfway up the wall of the river canyon. You can see from here that the main flow from Aragain Falls twists along a passage which it is impossible for you to enter. Below you is the canyon bottom. Above you is more cliff, which appears unclimbable.",
     flags := 1,
     exits := [(Direction.UP, "canyon_view"), (Direction.DOWN, "canyon_bottom")]}),
  ("canyon_bottom",
   { id := "canyon_bottom",
     name := "Canyon Bottom",
     description := "You are beneath the walls of the river canyon which may be climbable here. The lesser part of the runoff of Aragain Falls flows by below. To the north is a narrow path.",
     flags := 1,
     exits := [(Direction.UP, "rocky_ledge"), (Direction.NORTH, "end_of_rainbow")]}),
  ("end_of_rainbow",
   { id := "end_of_rainbow",
     name := "End of Rainbow",
     description := "You are on a small, rocky beach on the continuation of the Frigid River past the Falls. The beach is narrow due to the presence of the White Cliffs. The river canyon opens here and sunlight shines in from above. A rainbow crosses over the falls to the east and a narrow path continues to the southwest.",
     flags := 33,
     exits := [(Direction.SW, "canyon_bottom"), (Direction.EAST, "on_the_rainbow")]}),
  ("on_the_rainbow",
   { id := "on_the_rainbow",
     name := "On the Rainbow",
     description := "You are on top of a rainbow (I bet you never thought you would walk on a rainbow), with a magnificent view of the Falls. The rainbow travels east-west here.",
     flags := 1,
     exits := [(Direction.WEST, "end_of_rainbow"), (Direction.EAST, "aragain_falls")]}),
  ("aragain_falls",
   { id := "aragain_falls",
     name := "Aragain Falls",
     description := "You are at the top of Aragain Falls, an enormous waterfall with a drop of about 150 feet. The only safe way down is on the west side of the falls.",
     flags := 33,
     exits := [(Direction.WEST, "on_the_rainbow"), (Direction.UP, "on_the_rainbow"), (Direction.DOWN, "end_of_rainbow")]}),
  ("cellar",
   { id := "cellar",
     name := "Cellar",
     description := "You are in a dark and damp cellar with a narrow passageway leading north, and a crawlway to the south. On the west is the bottom of a steep metal ramp which is unclimbable.",
     flags := 0,
     exits := [(Direction.NORTH, "troll_room"), (Direction.SOUTH, "east_of_chasm"), (Direction.WEST, "slide_room"), (Direction.UP, "living_room")]})
]

def initRoomsPart2 : List (String × Room) := [
  ("troll_room",
   { id := "troll_room",
     name := "The Troll Room",
     description := "This is a small room with passages to the east and south and a forbidding hole leading west. Bloodstains and deep scratches (perhaps made by an axe) mar the walls.",
     flags := 0,
     exits := [(Direction.SOUTH, "cellar"), (Direction.EAST, "east_west_passage"), (Direction.WEST, "maze_1")]}),
  ("east_west_passage",
   { id := "east_west_passage",
     name := "East-West Passage",
     description := "This is a narrow east-west passageway. There is a narrow stairway leading down at the north end of the room.",
     flags := 0,
     exits := [(Direction.EAST, "round_room"), (Direction.WEST, "troll_room"), (Direction.NORTH, "chasm"), (Direction.DOWN, "chasm")]}),
  ("round_room",
   { id := "round_room",
     name := "Round Room",
     description := "This is a circular stone room with passages in all directions. Several of them have unfortunately been blocked by cave-ins.",
     flags := 0,
     exits := [(Direction.WEST, "east_west_passage"), (Direction.NORTH, "north_south_passage"), (Direction.SOUTH, "narrow_passage"), (Direction.EAST, "loud_room"), (Direction.SE, "engravings_cave")]}),
  ("narrow_passage",
   { id := "narrow_passage",
     name := "Narrow Passage",
     description := "This is a long and narrow corridor where a long north-south passageway briefly narrows even further.",
     flags := 0,
     exits := [(Direction.NORTH, "round_room"), (Direction.SOUTH, "mirror_room_south")]}),
  ("mirror_room_south",
   { id := "mirror_room_south",
     name := "Mirror Room",
     description := "You are in a large square room with tall ceilings. On the south wall is an enormous mirror which fills the entire wall. There are exits on the other three sides of the room.",
     flags := 0,
     exits := [(Direction.NORTH, "narrow_passage"), (Direction.WEST, "winding_passage"), (Direction.EAST, "cave_2")]}),
  ("cave_2",
   { id := "cave_2",
     name := "Cave",
     description := "This is a tiny cave with entrances west and north, and a staircase leading down.",
     flags := 0,
     exits := [(Direction.WEST, "mirror_room_south"), (Direction.NORTH, "mirror_room_north"), (Direction.DOWN, "entrance_to_hades")]}),
  ("winding_passage",
   { id := "winding_passage",
     name := "Winding Passage",
     description := "This is a winding passage. It seems that there are only exits on the east and north.",
     flags := 0,
     exits := [(Direction.NORTH, "mirror_room_north"), (Direction.EAST, "mirror_room_south")]}),
  ("mirror_room_north",
   { id := "mirror_room_north",
     name := "Mirror Room",
     description := "You are in a large square room with tall ceilings. On the south wall is an enormous mirror which fills the entire wall. There are exits on the other three sides of the room.",
     flags := 0,
     exits := [(Direction.SOUTH, "winding_passage"), (Direction.WEST, "cold_passage"), (Direction.EAST, "cave_1")]}),
  ("cold_passage",
   { id := "cold_passage",
     name := "Cold Passage",
     description := "This is a cold and damp corridor where a long east-west passageway turns into a southward path.",
     flags := 0,
     exits := [(Direction.EAST, "mirror_room_north"), (Direction.SOUTH, "slide_room")]}),
  ("slide_room",
   { id := "slide_room",
     name := "Slide Room",
     description := "This is a small chamber, which appears to have been part of a coal mine. On the south wall of the chamber the letters \"Granite Wall\" are etched in the rock. To the east is a long passage, and there is a steep metal slide twisting downward. To the north is a small opening.",
     flags := 0,
     exits := [(Direction.NORTH, "cold_passage"), (Direction.EAST, "mine_entrance"), (Direction.DOWN, "cellar")]}),
  ("mine_entrance",
   { id := "mine_entrance",
     name := "Mine Entrance",
     description := "You are standing at the entrance of what might have been a coal mine. The shaft enters the west wall, and there is another exit on the south end of the room.",
     flags := 0,
     exits := [(Direction.WEST, "slide_room"), (Direction.SOUTH, "squeaky_room")]}),
  ("squeaky_room",
   { id := "squeaky_room",
     name := "Squeaky Room",
     description := "You are in a small room. Strange squeaky sounds may be heard coming from the darkness at the east end of the room.",
     flags := 0,
     exits := [(Direction.NORTH, "mine_entrance"), (Direction.EAST, "bat_room")]}),
  ("bat_room",
   { id := "bat_room",
     name := "Bat Room",
     description := "You are in a small room which has doors only to the east and west.",
     flags := 0,
     exits := [(Direction.WEST, "squeaky_room"), (Direction.EAST, "shaft_room")]}),
  ("shaft_room",
   { id := "shaft_room",
     name := "Shaft Room",
     description := "This is a large room, in the middle of which is a small shaft descending through the floor into darkness below. To the west and the north are exits from this room. Constructed over the top of the shaft is a metal framework to which a heavy iron chain is attached.",
     flags := 0,
     exits := [(Direction.WEST, "bat_room"), (Direction.NORTH, "smelly_room"), (Direction.DOWN, "drafty_room")]}),
  ("smelly_room",
   { id := "smelly_room",
     name := "Smelly Room",
     description := "This is a small nondescript room. However, from the direction of a small descending staircase a foul odor can be detected. To the south is a narrow tunnel.",
     flags := 0,
     exits := [(Direction.SOUTH, "shaft_room"), (Direction.DOWN, "gas_room")]}),
  ("gas_room",
   { id := "gas_room",
     name := "Gas Room",
     description := "This is a small room which smells strongly of coal gas. There is a short climb up some stairs and a narrow tunnel leading east.",
     flags := 0,
     exits := [(Direction.UP, "smelly_room"), (Direction.EAST, "coal_mine_1")]}),
  ("coal_mine_1",
   { id := "coal_mine_1",
     name := "Coal Mine",
     description := "This is a non-descript part of a coal mine.",
     flags := 0,
     exits := [(Direction.WEST, "gas_room"), (Direction.NORTH, "coal_mine_2"), (Direction.EAST, "coal_mine_3"), (Direction.SW, "timber_room")]}),
  ("coal_mine_2",
   { id := "coal_mine_2",
     name := "Coal Mine",
     description := "This is a non-descript part of a coal mine.",
     flags := 0,
     exits := [(Direction.SOUTH, "coal_mine_1"), (Direction.NORTH, "coal_mine_4"), (Direction.SE, "coal_mine_3")]}),
  ("coal_mine_3",
   { id := "coal_mine_3",
     name := "Coal Mine",
     description := "This is a non-descript part of a coal mine.",
     flags := 0,
     exits := [(Direction.WEST, "coal_mine_1"), (Direction.EAST, "coal_mine_4"), (Direction.SOUTH, "ladder_top"), (Direction.NW, "coal_mine_2")]}),
  ("coal_mine_4",
   { id := "coal_mine_4",
     name := "Coal Mine",
     description := "This is a non-descript part of a coal mine.",
     flags := 0,
     exits := [(Direction.SOUTH, "coal_mine_2"), (Direction.WEST, "coal_mine_3"), (Direction.NORTH, "dead_end_coal_mine")]})
]

def initRoomsPart3 : List (String × Room) := [
  ("dead_end_coal_mine",
   { id := "dead_end_coal_mine",
     name := "Dead End",
     description := "You have come to a dead end in the mine.",
     flags := 0,
     exits := [(Direction.SOUTH, "coal_mine_4")]}),
  ("ladder_top",
   { id := "ladder_top",
     name := "Ladder Top",
     description := "This is a very small room. In the corner is a rickety wooden ladder, leading downward. It might be safe to descend. There is also a staircase leading upward.",
     flags := 0,
     exits := [(Direction.NORTH, "coal_mine_3"), (Direction.DOWN, "ladder_bottom"), (Direction.UP, "coal_mine_3")]}),
  ("ladder_bottom",
   { id := "ladder_bottom",
     name := "Ladder Bottom",
     description := "This is a rather wide room. On one side is the bottom of a narrow wooden ladder. To the west and the south are passages leaving the room.",
     flags := 0,
     exits := [(Direction.UP, "ladder_top"), (Direction.WEST, "timber_room"), (Direction.SOUTH, "dead_end_mine")]}),
  ("dead_end_mine",
   { id := "dead_end_mine",
     name := "Dead End",
     description := "You have come to a dead end in the mine.",
     flags := 0,
     exits := [(Direction.NORTH, "ladder_bottom")]}),
  ("timber_room",
   { id := "timber_room",
     name := "Timber Room",
     description := "This is a long and narrow passage, which is cluttered with broken timbers. A wide passage comes from the east and turns at the west end of the room into a very narrow passageway. From the west comes a strong draft.",
     flags := 0,
     exits := [(Direction.EAST, "ladder_bottom"), (Direction.WEST, "drafty_room"), (Direction.SOUTH, "coal_mine_1")]}),
  ("drafty_room",
   { id := "drafty_room",
     name := "Drafty Room",
     description := "This is a small drafty room in which is the bottom of a long shaft. To the south is a passageway and to the east a very narrow passage. In the shaft can be seen a heavy iron chain.",
     flags := 0,
     exits := [(Direction.EAST, "timber_room"), (Direction.SOUTH, "machine_room"), (Direction.UP, "shaft_room")]}),
  ("machine_room",
   { id := "machine_room",
     name := "Machine Room",
     description := "This is a large, cold room whose sole exit is to the north. In one corner there is a machine which is reminiscent of a clothes dryer. On its face is a switch which is labelled \"START\". The switch does not appear to be manipulatable by any human hand (unless the fingers are about 1/16 by 1/4 inch). On the front of the machine is a large lid, which is closed.",
     flags := 0,
     exits := [(Direction.NORTH, "drafty_room")]}),
  ("cave_1",
   { id := "cave_1",
     name := "Cave",
     description := "This is a tiny cave with entrances west and north, and a dark, forbidding staircase leading down.",
     flags := 0,
     exits := [(Direction.WEST, "mirror_room_north"), (Direction.NORTH, "twisting_passage"), (Direction.DOWN, "entrance_to_hades")]}),
  ("twisting_passage",
   { id := "twisting_passage",
     name := "Twisting Passage",
     description := "This is a winding passage. It seems that there are only exits on the east and north.",
     flags := 0,
     exits := [(Direction.NORTH, "mirror_room_north"), (Direction.SOUTH, "cave_1")]}),
  ("north_south_passage",
   { id := "north_south_passage",
     name := "North-South Passage",
     description := "This is a high north-south passage, which forks to the northeast.",
     flags := 0,
     exits := [(Direction.NORTH, "chasm"), (Direction.NE, "deep_canyon"), (Direction.SOUTH, "round_room")]}),
  ("chasm",
   { id := "chasm",
     name := "Chasm",
     description := "A chasm runs southwest to northeast and the path follows it. You are on the south side of the chasm, where a crack opens into a passage.",
     flags := 0,
     exits := [(Direction.NE, "reservoir_south"), (Direction.SW, "east_west_passage"), (Direction.SOUTH, "north_south_passage"), (Direction.DOWN, "north_south_passage")]}),
  ("deep_canyon",
   { id := "deep_canyon",
     name := "Deep Canyon",
     description := "You are on the south edge of a deep canyon. Passages lead off to the east, northwest and southwest. A stairway leads down. You can hear the sound of flowing water from below.",
     flags := 0,
     exits := [(Direction.SW, "north_south_passage"), (Direction.EAST, "dam"), (Direction.NW, "reservoir_south"), (Direction.DOWN, "loud_room")]}),
  ("loud_room",
   { id := "loud_room",
     name := "Loud Room",
     description := "This is a large room with a ceiling which cannot be detected from the ground. There is a narrow passage from east to west and a stone stairway leading upward. The room is deafeningly loud with an undetermined rushing sound. The sound seems to reverberate from all of the walls, making it difficult to determine its origin (although it is louder towards the west).",
     flags := 0,
     exits := [(Direction.WEST, "round_room"), (Direction.UP, "deep_canyon"), (Direction.EAST, "damp_cave")]}),
  ("damp_cave",
   { id := "damp_cave",
     name := "Damp Cave",
     description := "This cave has exits to the west and east, and narrows to a crack toward the south. The earth is particularly damp here.",
     flags := 0,
     exits := [(Direction.WEST, "loud_room"), (Direction.EAST, "white_cliffs_beach_north")]}),
  ("white_cliffs_beach_north",
   { id := "white_cliffs_beach_north",
     name := "White Cliffs Beach",
     description := "You are on a narrow strip of beach which runs along the base of the White Cliffs. There is a narrow path heading south along the Cliffs and a tight passage leading west into the cliffs themselves.",
     flags := 32,
     exits := [(Direction.WEST, "damp_cave"), (Direction.SOUTH, "white_cliffs_beach_south")]}),
  ("white_cliffs_beach_south",
   { id := "white_cliffs_beach_south",
     name := "White Cliffs Beach",
     description := "You are on a rocky, narrow strip of beach beside the Cliffs. A narrow path leads north along the shore.",
     flags := 32,
     exits := [(Direction.NORTH, "white_cliffs_beach_north")]}),
  ("dam",
   { id := "dam",
     name := "Dam",
     description := "You are standing on the top of the Flood Control Dam #3, which was built in 783 GUE to harness the mighty Frigid River. The dam controls a sluice gate by which water is passed downstream. The sluice gate can be controlled by a panel of buttons on the dam. A ladder leads down to the base of the dam.",
     flags := 1,
     exits := [(Direction.WEST, "deep_canyon"), (Direction.NORTH, "dam_lobby"), (Direction.EAST, "dam_base"), (Direction.DOWN, "dam_base")]}),
  ("dam_lobby",
   { id := "dam_lobby",
     name := "Dam Lobby",
     description := "This room appears to have been the waiting room for groups touring the dam. There are open doorways here to the north and east marked \"Private\", though the doors are open, and an exit to the south.",
     flags := 0,
     exits := [(Direction.SOUTH, "dam"), (Direction.NORTH, "maintenance_room"), (Direction.EAST, "maintenance_room")]}),
  ("maintenance_room",
   { id := "maintenance_room",
     name := "Maintenance Room",
     description := "This is what appears to have been the maintenance room for Flood Control Dam #3. Apparently, it has been many years since its last use. Most of the equipment here is in a state of disrepair. The only exit is to the south.",
     flags := 0,
     exits := [(Direction.SOUTH, "dam_lobby")]}),
  ("dam_base",
   { id := "dam_base",
     name := "Dam Base",
     description := "You are at the base of Flood Control Dam #3, which looms above you and to the north. The River Frigid is flowing by here. Along the river are the White Cliffs which seem to form giant walls stretching from north to south along the shores of the river as it winds its way downstream.",
     flags := 33,
     exits := [(Direction.NORTH, "dam"), (Direction.UP, "dam")]})
]

def initRoomsPart4 : List (String × Room) := [
  ("reservoir_south",
   { id := "reservoir_south",
     name := "Reservoir South",
     description := "You are in a long room on the south shore of a large lake, far too deep and wide for crossing. There is a path along the stream to the east or west, a steep pathway climbing southwest along the edge of a chasm, and a path leading into a canyon to the southeast.",
     flags := 0,
     exits := [(Direction.SE, "deep_canyon"), (Direction.SW, "chasm"), (Direction.WEST, "stream_view"), (Direction.EAST, "dam"), (Direction.NORTH, "reservoir")]}),
  ("reservoir",
   { id := "reservoir",
     name := "Reservoir",
     description := "You are on the lake. Beaches can be seen north and south. Upstream a small stream enters the lake through a narrow cleft in the rocks. The dam can be seen downstream.",
     flags := 32,
     exits := [(Direction.SOUTH, "reservoir_south"), (Direction.NORTH, "reservoir_north")]}),
  ("reservoir_north",
   { id := "reservoir_north",
     name := "Reservoir North",
     description := "You are in a large cavernous room, north of a large lake. There is a slimy stairway leaving the room to the north.",
     flags := 0,
     exits := [(Direction.SOUTH, "reservoir"), (Direction.NORTH, "atlantis_room")]}),
  ("stream_view",
   { id := "stream_view",
     name := "Stream View",
     description := "You are standing on a path beside a gently flowing stream. The path follows the stream, which flows from west to east.",
     flags := 0,
     exits := [(Direction.EAST, "reservoir_south"), (Direction.WEST, "stream")]}),
  ("stream",
   { id := "stream",
     name := "Stream",
     description := "You are on the gently flowing stream. The upstream route is too narrow to navigate, and the downstream route is blocked by a dam.",
     flags := 32,
     exits := [(Direction.EAST, "reservoir"), (Direction.WEST, "sluice_gate")]}),
  ("atlantis_room",
   { id := "atlantis_room",
     name := "Atlantis Room",
     description := "This is an ancient room, long buried beneath the earth. The room is bare, but the walls are covered with decorations of great archaeological value. An exit lies to the south, and a staircase leads up.",
     flags := 0,
     exits := [(Direction.SOUTH, "reservoir_north"), (Direction.UP, "cave_2")]}),
  ("maze_1",
   { id := "maze_1",
     name := "Maze",
     description := "This is part of a maze of twisty little passages, all alike.",
     flags := 0,
     exits := [(Direction.WEST, "troll_room"), (Direction.NORTH, "maze_1"), (Direction.SOUTH, "maze_2"), (Direction.EAST, "maze_4")]}),
  ("maze_2",
   { id := "maze_2",
     name := "Maze",
     description := "This is part of a maze of twisty little passages, all alike.",
     flags := 0,
     exits := [(Direction.SOUTH, "maze_1"), (Direction.NORTH, "maze_4"), (Direction.EAST, "maze_3")]}),
  ("maze_3",
   { id := "maze_3",
     name := "Maze",
     description := "This is part of a maze of twisty little passages, all alike.",
     flags := 0,
     exits := [(Direction.WEST, "maze_2"), (Direction.NORTH, "maze_4"), (Direction.UP, "maze_5")]}),
  ("maze_4",
   { id := "maze_4",
     name := "Maze",
     description := "This is part of a maze of twisty little passages, all alike. A skeleton, probably the remains of a luckless adventurer, lies here.",
     flags := 0,
     exits := [(Direction.WEST, "maze_1"), (Direction.NORTH, "maze_2"), (Direction.SOUTH, "maze_3")]}),
  ("maze_5",
   { id := "maze_5",
     name := "Maze",
     description := "This is part of a maze of twisty little passages, all alike.",
     flags := 0,
     exits := [(Direction.EAST, "dead_end_1"), (Direction.NORTH, "maze_6"), (Direction.DOWN, "maze_3")]}),
  ("maze_6",
   { id := "maze_6",
     name := "Maze",
     description := "This is part of a maze of twisty little passages, all alike.",
     flags := 0,
     exits := [(Direction.DOWN, "maze_7"), (Direction.EAST, "maze_7"), (Direction.WEST, "maze_7"), (Direction.UP, "maze_9")]}),
  ("maze_7",
   { id := "maze_7",
     name := "Maze",
     description := "This is part of a maze of twisty little passages, all alike.",
     flags := 0,
     exits := [(Direction.UP, "maze_14"), (Direction.WEST, "maze_6"), (Direction.NE, "dead_end_1"), (Direction.EAST, "maze_8"), (Direction.SOUTH, "maze_15")]}),
  ("maze_8",
   { id := "maze_8",
     name := "Maze",
     description := "This is part of a maze of twisty little passages, all alike.",
     flags := 0,
     exits := [(Direction.NE, "maze_7"), (Direction.WEST, "maze_8"), (Direction.SE, "dead_end_2")]}),
  ("maze_9",
   { id := "maze_9",
     name := "Maze",
     description := "This is part of a maze of twisty little passages, all alike.",
     flags := 0,
     exits := [(Direction.DOWN, "maze_6"), (Direction.SOUTH, "maze_10"), (Direction.EAST, "maze_12"), (Direction.WEST, "maze_13"), (Direction.NORTH, "maze_11")]}),
  ("maze_10",
   { id := "maze_10",
     name := "Maze",
     description := "This is part of a maze of twisty little passages, all alike.",
     flags := 0,
     exits := [(Direction.EAST, "maze_9"), (Direction.WEST, "maze_13"), (Direction.UP, "maze_5")]}),
  ("maze_11",
   { id := "maze_11",
     name := "Maze",
     description := "This is part of a maze of twisty little passages, all alike.",
     flags := 0,
     exits := [(Direction.DOWN, "maze_12"), (Direction.SW, "grating_room"), (Direction.EAST, "maze_13"), (Direction.WEST, "maze_11"), (Direction.UP, "maze_9")]}),
  ("maze_12",
   { id := "maze_12",
     name := "Maze",
     description := "This is part of a maze of twisty little passages, all alike.",
     flags := 0,
     exits := [(Direction.UP, "maze_11"), (Direction.SW, "maze_5"), (Direction.EAST, "maze_9"), (Direction.DOWN, "dead_end_1"), (Direction.NORTH, "maze_13")]}),
  ("maze_13",
   { id := "maze_13",
     name := "Maze",
     description := "This is part of a maze of twisty little passages, all alike.",
     flags := 0,
     exits := [(Direction.DOWN, "maze_12"), (Direction.WEST, "maze_11"), (Direction.NE, "grating_room"), (Direction.SOUTH, "maze_10"), (Direction.EAST, "maze_9")]}),
  ("maze_14",
   { id := "maze_14",
     name := "Maze",
     description := "This is part of a maze of twisty little passages, all alike.",
     flags := 0,
     exits := [(Direction.WEST, "maze_15"), (Direction.NE, "maze_7"), (Direction.NW, "maze_15")]})
]

def initRoomsPart5 : List (String × Room) := [
  ("maze_15",
   { id := "maze_15",
     name := "Maze",
     description := "This is part of a maze of twisty little passages, all alike.",
     flags := 0,
     exits := [(Direction.WEST, "maze_14"), (Direction.SOUTH, "cyclops_room"), (Direction.NE, "maze_7")]}),
  ("dead_end_1",
   { id := "dead_end_1",
     name := "Dead End",
     description := "You have come to a dead end in the maze.",
     flags := 0,
     exits := [(Direction.SOUTH, "maze_11")]}),
  ("dead_end_2",
   { id := "dead_end_2",
     name := "Dead End",
     description := "You have come to a dead end in the maze.",
     flags := 0,
     exits := [(Direction.NW, "maze_8")]}),
  ("grating_room",
   { id := "grating_room",
     name := "Grating Room",
     description := "You are in a small room near the maze. There are twisty passages in the immediate vicinity. Above you is a grating locked with a skull-and-crossbones lock.",
     flags := 0,
     exits := [(Direction.SW, "maze_11"), (Direction.NE, "maze_13"), (Direction.UP, "clearing")]}),
  ("cyclops_room",
   { id := "cyclops_room",
     name := "Cyclops Room",
     description := "This room has an exit on the west side, and a staircase leading up. A cyclops, who looks prepared to eat horses (much less mere adventurers), blocks the staircase. From his state of health, and the bloodstains on the walls, you gather that he is not very friendly, though he likes people.",
     flags := 0,
     exits := [(Direction.WEST, "maze_15"), (Direction.UP, "treasure_room")]}),
  ("treasure_room",
   { id := "treasure_room",
     name := "Treasure Room",
     description := "This is a large room, whose north wall is solid granite. A number of discarded bags, which crumble at your touch, are scattered about on the floor. There is an exit down and what appears to be a chimney in the east corner of the room.",
     flags := 0,
     exits := [(Direction.DOWN, "cyclops_room"), (Direction.EAST, "strange_passage")]}),
  ("strange_passage",
   { id := "strange_passage",
     name := "Strange Passage",
     description := "This is a long passage. To the west is one entrance. On the east there is an old wooden door, with a large opening in it (about cyclops sized).",
     flags := 0,
     exits := [(Direction.WEST, "treasure_room"), (Direction.EAST, "living_room")]}),
  ("east_of_chasm",
   { id := "east_of_chasm",
     name := "East of Chasm",
     description := "You are on the east edge of a chasm, the bottom of which cannot be seen. A narrow passage goes north, and the path you are on continues to the east.",
     flags := 0,
     exits := [(Direction.NORTH, "cellar"), (Direction.EAST, "gallery")]}),
  ("gallery",
   { id := "gallery",
     name := "Gallery",
     description := "This is an art gallery. Most of the paintings have been stolen by vandals with exceptional taste. The vandals left through the north, south, east, or west exit.",
     flags := 0,
     exits := [(Direction.NORTH, "studio"), (Direction.SOUTH, "east_of_chasm"), (Direction.EAST, "studio"), (Direction.WEST, "east_of_chasm")]}),
  ("studio",
   { id := "studio",
     name := "Studio",
     description := "This appears to have been an artist\x27s studio. The walls and floors are splattered with paints of 69 different colors. Strangely enough, nothing of value is hanging here. At the north and northwest of the room are small doors.",
     flags := 0,
     exits := [(Direction.SOUTH, "gallery"), (Direction.NORTH, "gallery"), (Direction.UP, "kitchen")]}),
  ("engravings_cave",
   { id := "engravings_cave",
     name := "Engravings Cave",
     description := "You have entered a low cave with passages leading northwest and east. There are old engravings on the walls here.",
     flags := 0,
     exits := [(Direction.NW, "round_room"), (Direction.EAST, "dome_room")]}),
  ("dome_room",
   { id := "dome_room",
     name := "Dome Room",
     description := "You are at the periphery of a large dome, which forms the ceiling of another room below. Protecting you from a precipitous drop is a wooden railing which circles the dome.",
     flags := 0,
     exits := [(Direction.WEST, "engravings_cave"), (Direction.DOWN, "torch_room")]}),
  ("torch_room",
   { id := "torch_room",
     name := "Torch Room",
     description := "This is a large room with a prominent doorway leading to a down staircase. Above you is a large dome. Up around the edge of the dome (20 feet up) is a wooden railing. In the center of the room sits a white marble pedestal.",
     flags := 0,
     exits := [(Direction.SOUTH, "temple"), (Direction.DOWN, "north_temple"), (Direction.UP, "dome_room")]}),
  ("temple",
   { id := "temple",
     name := "Temple",
     description := "This is the north end of a large temple. On the east wall is an ancient inscription, probably a prayer in a long-forgotten language. Below the prayer is a staircase leading down. The west wall is solid granite. The exit to the north end of the temple is through huge marble pillars.",
     flags := 0,
     exits := [(Direction.NORTH, "torch_room"), (Direction.EAST, "egyptian_room"), (Direction.DOWN, "egyptian_room"), (Direction.SOUTH, "altar")]}),
  ("altar",
   { id := "altar",
     name := "Altar",
     description := "This is the south end of a large temple. In front of you is what appears to be an altar. In one corner is a small hole in the floor which leads into darkness. You probably could not get back up it.",
     flags := 0,
     exits := [(Direction.NORTH, "temple"), (Direction.DOWN, "cave_1")]}),
  ("egyptian_room",
   { id := "egyptian_room",
     name := "Egyptian Room",
     description := "This is a room which looks like an Egyptian tomb. There is an ascending staircase to the west.",
     flags := 0,
     exits := [(Direction.WEST, "temple"), (Direction.UP, "temple")]}),
  ("north_temple",
   { id := "north_temple",
     name := "North Temple",
     description := "This is a room of large proportions filled with religious objects, paintings, and a digital clock which has stopped. There is a door to the west and a staircase leading up.",
     flags := 0,
     exits := [(Direction.UP, "torch_room"), (Direction.WEST, "entrance_to_hades"), (Direction.SOUTH, "south_temple")]}),
  ("south_temple",
   { id := "south_temple",
     name := "South Temple",
     description := "This is the south end of a large temple. There is a door to the west, and a staircase leading up. The door is barred from the other side.",
     flags := 0,
     exits := [(Direction.NORTH, "north_temple"), (Direction.UP, "treasure_room"), (Direction.WEST, "south_temple")]}),
  ("entrance_to_hades",
   { id := "entrance_to_hades",
     name := "Entrance to Hades",
     description := "You are outside a large gate, on which is inscribed:\n\n\"Abandon every hope, all ye who enter here!\"\n\nThe gate is open; through it you can see a desolation, with a pile of mangled bodies in one corner. Thousands of voices, lamenting some hideous fate, can be heard. The way through the gate is barred by evil spirits, who jeer at your attempts to pass.",
     flags := 0,
     exits := [(Direction.NORTH, "cave_1"), (Direction.UP, "cave_2"), (Direction.SOUTH, "land_of_the_dead"), (Direction.EAST, "north_temple")]}),
  ("land_of_the_dead",
   { id := "land_of_the_dead",
     name := "Land of the Living Dead",
     description := "You have entered the Land of the Living Dead. Thousands of lost souls can be heard weeping and moaning. In the corner are stacked the remains of dozens of previous adventurers less fortunate than yourself. A passage exits to the north.",
     flags := 0,
     exits := [(Direction.NORTH, "entrance_to_hades")] })
]

def initRooms : List (String × Room) :=
  initRoomsPart1 ++ initRoomsPart2 ++ initRoomsPart3 ++ initRoomsPart4 ++ initRoomsPart5

/-- The object dictionary built by `_init_objects`. -/
def initObjectsPart1 : List (String × GameObject) := [
  ("mailbox",
   { id := "mailbox",
     name := "mailbox",
     description := "small mailbox",
     examine_text := "It\x27s a small mailbox.",
     flags := 40,
     location := some "west_of_house"}),
  ("leaflet",
   { id := "leaflet",
     name := "leaflet",
     description := "leaflet",
     examine_text := "\"WELCOME TO ZORK!\n\nZORK is a game of adventure, danger, and low cunning. In it you will explore some of the most amazing territory ever seen by mortals. No computer should be without one!\"",
     flags := 258,
     location := some "mailbox",
     size := 1}),
  ("mat",
   { id := "mat",
     name := "mat",
     description := "welcome mat",
     examine_text := "Welcome to Zork!",
     initial_text := "A rubber mat saying \x27Welcome to Zork!\x27 lies by the door.",
     flags := 258,
     location := some "west_of_house",
     size := 2}),
  ("lamp",
   { id := "lamp",
     name := "lamp",
     description := "brass lantern",
     examine_text := "It is a shiny brass lamp. It is not currently lit.",
     flags := 4098,
     location := some "living_room",
     size := 3}),
  ("torch",
   { id := "torch",
     name := "torch",
     description := "ivory torch",
     examine_text := "The torch is ivory-colored, inlaid with gold.",
     initial_text := "Sitting on the pedestal is a flaming torch, made of ivory.",
     flags := 1122434,
     location := some "torch_room",
     size := 2,
     value := 14}),
  ("candles",
   { id := "candles",
     name := "candles",
     description := "pair of candles",
     examine_text := "The candles are not lit.",
     flags := 1048578,
     location := some "altar",
     size := 2}),
  ("matchbook",
   { id := "matchbook",
     name := "matchbook",
     description := "matchbook",
     examine_text := "The matchbook is from the Borphee Grill. You have 5 matches.",
     flags := 258,
     location := some "dam_lobby",
     size := 1}),
  ("sword",
   { id := "sword",
     name := "sword",
     description := "elvish sword",
     examine_text := "It\x27s an elvish sword of great antiquity. It glows with a faint blue glow.",
     flags := 2050,
     location := some "living_room",
     size := 3}),
  ("knife",
   { id := "knife",
     name := "knife",
     description := "nasty knife",
     examine_text := "It\x27s a nasty-looking knife.",
     flags := 2050,
     location := some "attic",
     size := 1}),
  ("axe",
   { id := "axe",
     name := "axe",
     description := "bloody axe",
     examine_text := "It\x27s a bloody axe.",
     flags := 2050,
     location := none,
     size := 3}),
  ("stiletto",
   { id := "stiletto",
     name := "stiletto",
     description := "stiletto",
     examine_text := "It\x27s a vicious stiletto.",
     flags := 2050,
     location := none,
     size := 1}),
  ("rusty_knife",
   { id := "rusty_knife",
     name := "knife",
     description := "rusty knife",
     examine_text := "It\x27s a rusty knife.",
     flags := 2050,
     location := some "maze_4",
     size := 1}),
  ("rope",
   { id := "rope",
     name := "rope",
     description := "rope",
     examine_text := "It\x27s a sturdy hemp rope.",
     flags := 524290,
     location := some "attic",
     size := 2}),
  ("shovel",
   { id := "shovel",
     name := "shovel",
     description := "shovel",
     examine_text := "It\x27s a sturdy shovel.",
     flags := 524290,
     location := some "white_cliffs_beach_south",
     size := 3}),
  ("screwdriver",
   { id := "screwdriver",
     name := "screwdriver",
     description := "screwdriver",
     examine_text := "It\x27s a flathead screwdriver.",
     flags := 524290,
     location := some "maintenance_room",
     size := 1}),
  ("wrench",
   { id := "wrench",
     name := "wrench",
     description := "wrench",
     examine_text := "It\x27s a large adjustable wrench.",
     flags := 524290,
     location := some "maintenance_room",
     size := 2}),
  ("pump",
   { id := "pump",
     name := "pump",
     description := "hand-held air pump",
     examine_text := "It\x27s a hand-held air pump for inflating things.",
     flags := 524290,
     location := some "gas_room",
     size := 2}),
  ("bottle",
   { id := "bottle",
     name := "bottle",
     description := "glass bottle",
     examine_text := "The glass bottle contains:\n  A quantity of water",
     flags := 1034,
     location := some "kitchen",
     size := 2}),
  ("water",
   { id := "water",
     name := "water",
     description := "quantity of water",
     flags := 32768,
     location := some "bottle",
     size := 1}),
  ("sack",
   { id := "sack",
     name := "sack",
     description := "brown sack",
     examine_text := "The brown sack contains:\n  A lunch\n  A clove of garlic",
     flags := 26,
     location := some "kitchen",
     capacity := 9,
     size := 2})
]

def initObjectsPart2 : List (String × GameObject) := [
  ("lunch",
   { id := "lunch",
     name := "lunch",
     description := "lunch",
     examine_text := "It looks like a tasty lunch.",
     flags := 16386,
     location := some "sack",
     size := 2}),
  ("garlic",
   { id := "garlic",
     name := "garlic",
     description := "clove of garlic",
     examine_text := "It\x27s a clove of garlic. It smells terribly.",
     flags := 2,
     location := some "sack",
     size := 1}),
  ("bag",
   { id := "bag",
     name := "bag",
     description := "leather bag of coins",
     examine_text := "The leather bag is filled with gold coins.",
     flags := 65562,
     location := some "maze_5",
     size := 3,
     value := 10}),
  ("basket",
   { id := "basket",
     name := "basket",
     description := "wicker basket",
     examine_text := "It\x27s a wicker basket.",
     flags := 26,
     location := some "shaft_room",
     capacity := 5,
     size := 3}),
  ("case",
   { id := "case",
     name := "case",
     description := "trophy case",
     examine_text := "The trophy case is empty.",
     flags := 263192,
     location := some "living_room",
     capacity := 30}),
  ("rug",
   { id := "rug",
     name := "rug",
     description := "large oriental rug",
     examine_text := "The rug is extremely heavy and cannot be carried.",
     initial_text := "A large oriental rug covers the floor.",
     flags := 1,
     location := some "living_room"}),
  ("trap_door",
   { id := "trap_door",
     name := "door",
     description := "trap door",
     examine_text := "The trap door is closed.",
     flags := 544,
     location := none}),
  ("window",
   { id := "window",
     name := "window",
     description := "small window",
     examine_text := "The window is slightly ajar, but not enough to allow entry.",
     flags := 1,
     location := some "behind_house"}),
  ("chimney",
   { id := "chimney",
     name := "chimney",
     description := "chimney",
     examine_text := "The chimney leads down.",
     flags := 1,
     location := some "kitchen"}),
  ("leaves",
   { id := "leaves",
     name := "leaves",
     description := "pile of leaves",
     examine_text := "The leaves are turning brown, indicating autumn.",
     flags := 1,
     location := some "clearing"}),
  ("grating",
   { id := "grating",
     name := "grating",
     description := "grating",
     examine_text := "The grating is locked.",
     flags := 608,
     location := none}),
  ("skeleton_key",
   { id := "skeleton_key",
     name := "key",
     description := "skeleton key",
     examine_text := "It\x27s a skeleton key.",
     flags := 524290,
     location := some "maze_4",
     size := 1}),
  ("skeleton",
   { id := "skeleton",
     name := "skeleton",
     description := "skeleton",
     examine_text := "A skeleton is lying in the corner.",
     flags := 1,
     location := some "maze_4"}),
  ("useless_lantern",
   { id := "useless_lantern",
     name := "lantern",
     description := "broken brass lantern",
     examine_text := "It\x27s a broken brass lantern. It won\x27t light.",
     flags := 2,
     location := some "maze_4",
     size := 3}),
  ("chain",
   { id := "chain",
     name := "chain",
     description := "heavy chain",
     examine_text := "It\x27s a heavy iron chain.",
     flags := 1,
     location := some "shaft_room"}),
  ("timber",
   { id := "timber",
     name := "timber",
     description := "broken timber",
     examine_text := "It\x27s a broken piece of timber.",
     flags := 2,
     location := some "timber_room",
     size := 3}),
  ("pile_of_coal",
   { id := "pile_of_coal",
     name := "coal",
     description := "small pile of coal",
     examine_text := "It\x27s a small pile of coal.",
     flags := 2,
     location := some "dead_end_coal_mine",
     size := 2}),
  ("machine",
   { id := "machine",
     name := "machine",
     description := "machine",
     examine_text := "It\x27s a complex machine with a large lid and a small switch.",
     flags := 41,
     location := some "machine_room",
     capacity := 5}),
  ("switch",
   { id := "switch",
     name := "switch",
     description := "switch",
     examine_text := "It\x27s a small switch labelled \"START\".",
     flags := 1,
     location := some "machine_room"}),
  ("control_panel",
   { id := "control_panel",
     name := "panel",
     description := "control panel",
     examine_text := "The panel has a large green button marked \"Open Sluice Gate\" and a large red button marked \"Close Sluice Gate\".",
     flags := 1,
     location := some "dam"})
]

def initObjectsPart3 : List (String × GameObject) := [
  ("green_button",
   { id := "green_button",
     name := "button",
     description := "green button",
     examine_text := "It\x27s a large green button marked \"Open Sluice Gate\".",
     flags := 1,
     location := some "dam"}),
  ("red_button",
   { id := "red_button",
     name := "button",
     description := "red button",
     examine_text := "It\x27s a large red button marked \"Close Sluice Gate\".",
     flags := 1,
     location := some "dam"}),
  ("guidebook",
   { id := "guidebook",
     name := "guidebook",
     description := "tour guidebook",
     examine_text := "\"Flood Control Dam #3 was constructed in 783 GUE with a grant of 37 million zorkmids from Lord Dimwit Flathead the Excessive...\"",
     flags := 258,
     location := some "dam_lobby",
     size := 1}),
  ("bell",
   { id := "bell",
     name := "bell",
     description := "brass bell",
     examine_text := "It\x27s a small brass bell.",
     flags := 2,
     location := some "temple",
     size := 2}),
  ("book",
   { id := "book",
     name := "book",
     description := "black book",
     examine_text := "The book is written in an ancient language. Some of the text is readable:\n\n\"...seek ye the Black Crystal of Night which was lost in the Land of the Living Dead...\"",
     flags := 262402,
     location := some "altar",
     size := 2}),
  ("prayer",
   { id := "prayer",
     name := "prayer",
     description := "ancient prayer",
     examine_text := "The prayer is inscribed in an ancient script. It appears to be a powerful exorcism ritual.",
     flags := 256,
     location := some "temple"}),
  ("mirror_south",
   { id := "mirror_south",
     name := "mirror",
     description := "mirror",
     examine_text := "You see yourself in the mirror.",
     flags := 1,
     location := some "mirror_room_south"}),
  ("mirror_north",
   { id := "mirror_north",
     name := "mirror",
     description := "mirror",
     examine_text := "You see yourself in the mirror.",
     flags := 1,
     location := some "mirror_room_north"}),
  ("jeweled_egg",
   { id := "jeweled_egg",
     name := "egg",
     description := "jewel-encrusted egg",
     examine_text := "The egg is covered with fine gold inlay and ornamented in lapis lazuli and mother-of-pearl. Unlike most eggs, this one is hinged and closed with a delicate looking clasp. The egg appears extremely fragile.",
     flags := 65578,
     location := some "up_tree",
     size := 2,
     value := 5}),
  ("golden_canary",
   { id := "golden_canary",
     name := "canary",
     description := "golden clockwork canary",
     examine_text := "The golden clockwork canary is a tiny mechanical bird made of gold. It appears to have a winding key.",
     flags := 65538,
     location := some "jeweled_egg",
     size := 1,
     value := 6}),
  ("painting",
   { id := "painting",
     name := "painting",
     description := "painting",
     examine_text := "The painting is of unparalleled beauty. It depicts a gentleman on horseback.",
     flags := 1114114,
     location := some "gallery",
     size := 4,
     value := 4}),
  ("sceptre",
   { id := "sceptre",
     name := "sceptre",
     description := "sceptre",
     examine_text := "The sceptre is ornamented with colored enamel and jewels.",
     flags := 65538,
     location := none,
     size := 2,
     value := 4}),
  ("coffin",
   { id := "coffin",
     name := "coffin",
     description := "gold coffin",
     examine_text := "The gold coffin is closed.",
     flags := 327722,
     location := some "egyptian_room",
     size := 6,
     value := 10}),
  ("trunk",
   { id := "trunk",
     name := "trunk",
     description := "trunk of jewels",
     examine_text := "The trunk is filled with jewels of every type, size, and color.",
     flags := 65538,
     location := none,
     size := 5,
     value := 14}),
  ("crystal_trident",
   { id := "crystal_trident",
     name := "trident",
     description := "crystal trident",
     examine_text := "The trident is made of pure crystal and gleams with an inner light.",
     flags := 65538,
     location := some "atlantis_room",
     size := 3,
     value := 4}),
  ("jade_figurine",
   { id := "jade_figurine",
     name := "figurine",
     description := "jade figurine",
     examine_text := "The figurine is of a small green elephant. It is exquisitely crafted.",
     flags := 65538,
     location := some "bat_room",
     size := 1,
     value := 5}),
  ("sapphire_bracelet",
   { id := "sapphire_bracelet",
     name := "bracelet",
     description := "sapphire bracelet",
     examine_text := "The bracelet is made of hundreds of tiny sapphires.",
     flags := 65538,
     location := some "gas_room",
     size := 1,
     value := 5}),
  ("chalice",
   { id := "chalice",
     name := "chalice",
     description := "silver chalice",
     examine_text := "The silver chalice is intricately engraved.",
     flags := 65538,
     location := some "treasure_room",
     size := 2,
     value := 10}),
  ("pot_of_gold",
   { id := "pot_of_gold",
     name := "gold",
     description := "pot of gold",
     examine_text := "The pot is filled with gold pieces. It must be worth a fortune!",
     flags := 65538,
     location := some "end_of_rainbow",
     size := 4,
     value := 10}),
  ("platinum_bar",
   { id := "platinum_bar",
     name := "bar",
     description := "platinum bar",
     examine_text := "The platinum bar is extremely heavy.",
     flags := 65538,
     location := some "loud_room",
     size := 5,
     value := 10})
]

def initObjectsPart4 : List (String × GameObject) := [
  ("crystal_skull",
   { id := "crystal_skull",
     name := "skull",
     description := "crystal skull",
     examine_text := "The crystal skull grins at you menacingly. Its eyes seem to follow your movements.",
     flags := 65538,
     location := some "land_of_the_dead",
     size := 2,
     value := 10}),
  ("jeweled_scarab",
   { id := "jeweled_scarab",
     name := "scarab",
     description := "beautiful jeweled scarab",
     examine_text := "The scarab is covered with precious jewels.",
     flags := 65538,
     location := none,
     size := 1,
     value := 5}),
  ("large_emerald",
   { id := "large_emerald",
     name := "emerald",
     description := "large emerald",
     examine_text := "The emerald is exceptionally large and perfectly cut.",
     flags := 65538,
     location := some "white_cliffs_beach_south",
     size := 1,
     value := 5}),
  ("diamond",
   { id := "diamond",
     name := "diamond",
     description := "huge diamond",
     examine_text := "The diamond is enormous! It catches the light beautifully.",
     flags := 65538,
     location := none,
     size := 1,
     value := 10 })
]

def initObjects : List (String × GameObject) :=
  initObjectsPart1 ++ initObjectsPart2 ++ initObjectsPart3 ++ initObjectsPart4

/-- The actor dictionary built by `_init_actors`. -/
def initActorsPart1 : List (String × Actor) := [
  ("troll",
   { id := "troll",
     name := "troll",
     description := "A nasty-looking troll, brandishing a bloody axe, blocks all passages out of the room.",
     location := some "troll_room",
     health := 100,
     hostile := true,
     messages := [("first_encounter", "A nasty-looking troll, brandishing a bloody axe, blocks all passages out of the room."), ("fight", "The troll swings his axe at you!"), ("death", "The troll collapses to the floor, dead."), ("payment", "The troll, satisfied with his payment, retreats to the north."), ("axe_thrown", "The troll, disarmed, cowers in terror, pleading for his life.")]}),
  ("thief",
   { id := "thief",
     name := "thief",
     description := "A seedy-looking individual with a large bag just wandered through the room.",
     location := none,
     health := 100,
     hostile := false,
     messages := [("first_encounter", "Someone carrying a large bag is casually leaning against one of the walls here."), ("fight", "The thief nimbly avoids your attack."), ("steal", "The thief skillfully relieves you of"), ("death", "The thief drops his bag and falls to the floor, dead."), ("stiletto", "The thief stabs you with his stiletto!"), ("engrossed", "The thief is engrossed in his booty and doesn\x27t notice you.")]}),
  ("cyclops",
   { id := "cyclops",
     name := "cyclops",
     description := "A cyclops, who looks prepared to eat horses (much less mere adventurers), blocks the staircase.",
     location := some "cyclops_room",
     health := 200,
     hostile := true,
     messages := [("first_encounter", "A cyclops, who looks prepared to eat horses (much less mere adventurers), blocks the staircase."), ("fight", "The cyclops swings his massive fist at you!"), ("hungry", "The cyclops is hungry and blocking the staircase."), ("flees", "The cyclops, hearing the name of his master, flees the room by knocking down the wall on the east of the room!"), ("odysseus", "\"Do you think I\x27m as stupid as my father was?\" he says, and hits you with a crushing blow.")]}),
  ("spirits",
   { id := "spirits",
     name := "spirits",
     description := "Evil spirits guard the entrance to Hades.",
     location := some "entrance_to_hades",
     health := 999,
     hostile := false,
     messages := [("block", "Some invisible force prevents you from passing through the gate."), ("ceremony", "The spirits, sensing the power of the ceremony, flee in terror!"), ("exorcise", "The bell, book, and candles perform an exorcism, banishing the evil spirits!")]}),
  ("bat",
   { id := "bat",
     name := "bat",
     description := "A large vampire bat is hanging from the ceiling.",
     location := some "bat_room",
     health := 10,
     hostile := false,
     messages := [("first_encounter", "In the corner of the room on the ceiling is a large vampire bat who is obviously deranged and holding his nose."), ("garlic", "The bat, upon seeing the garlic, squeaks in terror and flies away!"), ("flies", "The bat flies around the room.")] })
]

def initActors : List (String × Actor) :=
  initActorsPart1

/-! ### Game state -/

/-- The mutable state of `ZorkGame` (`__init__`): entity stores, player
state and the world-flags.  The file-output and prompt collaborators
are outside the model. -/
structure GameState where
  player_name : String
  rooms : List (String × Room)
  objects : List (String × GameObject)
  actors : List (String × Actor)
  current_room : String
  player_inventory : List String
  score : Nat
  moves : Nat
  verbose : Bool
  game_over : Bool
  visited_rooms : List String
  deaths : Nat
  lamp_on : Bool
  lamp_life : Int
  grating_unlocked : Bool
  trap_door_open : Bool
  rainbow_solid : Bool
  dam_open : Bool
  loud_room_level : Int
  coffin_open : Bool
  bell_rung : Bool
  candles_lit : Bool
  book_read : Bool
  spirits_released : Bool
  cyclops_fled : Bool
  mirror_broken : Bool
  troll_payment : Bool
  thief_here : Bool
  treasures_deposited : Nat
deriving DecidableEq

/-- The state right after `ZorkGame.__init__`. -/
def initState : GameState where
  player_name := "Adventurer"
  rooms := initRooms
  objects := initObjects
  actors := initActors
  current_room := "west_of_house"
  player_inventory := []
  score := 0
  moves := 0
  verbose := true
  game_over := false
  visited_rooms := []
  deaths := 0
  lamp_on := false
  lamp_life := 330
  grating_unlocked := false
  trap_door_open := false
  rainbow_solid := false
  dam_open := false
  loud_room_level := 4
  coffin_open := false
  bell_rung := false
  candles_lit := false
  book_read := false
  spirits_released := false
  cyclops_fled := false
  mirror_broken := false
  troll_payment := false
  thief_here := false
  treasures_deposited := 0

/-! ### Visibility and name resolution -/

/-- The `ZorkGame._is_visible`: an object is visible when it is in the
inventory, in the current room, or one hop inside an open or
transparent container that is itself in the current room or the
inventory.  `if obj.location:` in the source tests Python truthiness,
so `None` and the empty string both fail the test. -/
def _is_visible (s : GameState) (obj_id : String) : Bool :=
  match aget s.objects obj_id with
  | none => false
  | some obj =>
    if s.player_inventory.contains obj_id then true
    else if obj.location == some s.current_room then true
    else
      match obj.location with
      | none => false
      | some loc =>
        if loc ≠ "" then
          match aget s.objects loc with
          | none => false
          | some container =>
            if hasFlag container.flags ObjectFlag.CONTAINER then
              if hasFlag container.flags ObjectFlag.OPEN ||
                 hasFlag container.flags ObjectFlag.TRANSPARENT then
                container.location == some s.current_room ||
                  s.player_inventory.contains container.id
              else false
            else false
        else false

/-- Python substring test `n in h`. -/
def isSub (n h : String) : Bool :=
  (List.range (h.data.length + 1)).any (fun i => n.data.isPrefixOf (h.data.drop i))

/-- The `ZorkGame._find_object`: actor ids in the current room first, then
exact name matches, then substring-of-name, then
substring-of-description, all restricted to visible objects. -/
def _find_object (s : GameState) (name : String) : Option String :=
  match s.actors.find? (fun p => p.2.location == some s.current_room && p.1 == name) with
  | some p => some p.1
  | none =>
    match s.objects.find? (fun p => p.2.name == name && _is_visible s p.1) with
    | some p => some p.1
    | none =>
      match s.objects.find? (fun p => isSub name p.2.name && _is_visible s p.1) with
      | some p => some p.1
      | none =>
        match s.objects.find? (fun p => isSub name p.2.description && _is_visible s p.1) with
        | some p => some p.1
        | none => none

/-! ### Parser -/

/-- ASCII lowering, modelling `str.lower()` on the ASCII input the
game reads. -/
def strToLower (s : String) : String := ⟨s.data.map Char.toLower⟩

/-- Strip of leading and trailing whitespace, modelling `str.strip()`. -/
def pyStrip (s : String) : String :=
  ⟨((s.data.dropWhile Char.isWhitespace).reverse.dropWhile Char.isWhitespace).reverse⟩

/-- Worker for `splitWords`: characters still to read, the word read
so far (reversed). -/
def pySplitAux : List Char → List Char → List String
  | [], acc => if acc.isEmpty then [] else [String.mk acc.reverse]
  | c :: t, acc =>
    if c.isWhitespace then
      if acc.isEmpty then pySplitAux t []
      else String.mk acc.reverse :: pySplitAux t []
    else pySplitAux t (c :: acc)

/-- Whitespace split modelling Python `str.split()` (split on runs of
whitespace, no empty fields). -/
def splitWords (input : String) : List String := pySplitAux input.data []

/-- The `" ".join(words)`, modelling the join in `_parse_command`. -/
def pyJoin : List String → String
  | [] => ""
  | [x] => x
  | x :: t => x ++ " " ++ pyJoin t

/-- Prefix test modelling `str.startswith`. -/
def pyStartsWith (s pre : String) : Bool := pre.data.isPrefixOf s.data

/-- Drop of the first `n` characters, modelling the slice `s[n:]`. -/
def pyDrop (s : String) (n : Nat) : String := ⟨s.data.drop n⟩

/-- The `direction_map` dictionary of `_parse_command` (unique keys). -/
def directionMap : List (String × Direction) := [
  ("n", Direction.NORTH), ("north", Direction.NORTH),
  ("s", Direction.SOUTH), ("south", Direction.SOUTH),
  ("e", Direction.EAST), ("east", Direction.EAST),
  ("w", Direction.WEST), ("west", Direction.WEST),
  ("ne", Direction.NE), ("northeast", Direction.NE),
  ("nw", Direction.NW), ("northwest", Direction.NW),
  ("se", Direction.SE), ("southeast", Direction.SE),
  ("sw", Direction.SW), ("southwest", Direction.SW),
  ("u", Direction.UP), ("up", Direction.UP),
  ("d", Direction.DOWN), ("down", Direction.DOWN),
  ("in", Direction.IN), ("enter", Direction.IN),
  ("out", Direction.OUT), ("exit", Direction.OUT)]

/-- Key-value pairs of the `verb_map` dictionary literal of
`_parse_command`, in source order.  The literal repeats the keys
"light" (first `TURN_ON`, later `BURN`) and "extinguish" (first
`TURN_OFF`, later `EXTINGUISH`). -/
def verbMapEntries : List (String × VerbType) := [
  ("take", VerbType.TAKE), ("get", VerbType.TAKE), ("pick", VerbType.TAKE),
  ("drop", VerbType.DROP), ("throw", VerbType.DROP), ("put", VerbType.DROP),
  ("open", VerbType.OPEN),
  ("close", VerbType.CLOSE), ("shut", VerbType.CLOSE),
  ("examine", VerbType.EXAMINE), ("x", VerbType.EXAMINE), ("look", VerbType.EXAMINE),
  ("l", VerbType.LOOK),
  ("inventory", VerbType.INVENTORY), ("i", VerbType.INVENTORY),
  ("quit", VerbType.QUIT), ("q", VerbType.QUIT),
  ("save", VerbType.SAVE),
  ("restore", VerbType.RESTORE), ("load", VerbType.RESTORE),
  ("restart", VerbType.RESTART),
  ("score", VerbType.SCORE),
  ("version", VerbType.VERSION),
  ("verbose", VerbType.VERBOSE),
  ("brief", VerbType.BRIEF),
  ("wait", VerbType.WAIT), ("z", VerbType.WAIT),
  ("turn", VerbType.TURN),
  ("light", VerbType.TURN_ON),
  ("extinguish", VerbType.TURN_OFF),
  ("move", VerbType.MOVE), ("push", VerbType.PUSH),
  ("read", VerbType.READ),
  ("attack", VerbType.ATTACK), ("kill", VerbType.KILL), ("fight", VerbType.ATTACK),
  ("eat", VerbType.EAT),
  ("drink", VerbType.DRINK),
  ("break", VerbType.BREAK), ("smash", VerbType.BREAK),
  ("diagnose", VerbType.DIAGNOSE),
  ("give", VerbType.GIVE),
  ("unlock", VerbType.UNLOCK),
  ("lock", VerbType.LOCK),
  ("tie", VerbType.TIE),
  ("untie", VerbType.UNTIE),
  ("burn", VerbType.BURN), ("light", VerbType.BURN),
  ("extinguish", VerbType.EXTINGUISH),
  ("ring", VerbType.RING),
  ("wind", VerbType.WIND),
  ("dig", VerbType.DIG),
  ("fill", VerbType.FILL),
  ("pour", VerbType.POUR),
  ("pray", VerbType.PRAY),
  ("wave", VerbType.WAVE),
  ("raise", VerbType.RAISE),
  ("lower", VerbType.LOWER),
  ("climb", VerbType.CLIMB),
  ("jump", VerbType.JUMP)]

/-- Assignment `d[k] = v` on a `String`-keyed dictionary: overwrite in
place or append. -/
def aput {α : Type} (l : List (String × α)) (k : String) (v : α) :
    List (String × α) :=
  if (l.map Prod.fst).contains k then
    l.map (fun q => if q.1 = k then (q.1, v) else q)
  else l ++ [(k, v)]

/-- The dictionary a Python dict literal builds from its key-value
pairs: entries are inserted in order, a repeated key overwrites the
earlier value. -/
def dictOf {α : Type} (entries : List (String × α)) : List (String × α) :=
  entries.foldl (fun d p => aput d p.1 p.2) []

/-- The `verb_map` dictionary as built at runtime. -/
def verbMap : List (String × VerbType) := dictOf verbMapEntries

/-- The textual rewrites `_parse_command` applies to the joined
remaining words: strip "at " after `EXAMINE`, split `TURN` into
`TURN_ON`/`TURN_OFF`, strip "up " after `TAKE`. -/
def applyRewrites (v : VerbType) (remaining : String) : VerbType × String :=
  let r1 := if v == VerbType.EXAMINE && pyStartsWith remaining "at " then
    pyDrop remaining 3 else remaining
  let vr2 :=
    if v == VerbType.TURN then
      if pyStartsWith r1 "on " then (VerbType.TURN_ON, pyDrop r1 3)
      else if pyStartsWith r1 "off " then (VerbType.TURN_OFF, pyDrop r1 4)
      else (v, r1)
    else (v, r1)
  let r3 := if vr2.1 == VerbType.TAKE && pyStartsWith vr2.2 "up " then
    pyDrop vr2.2 3 else vr2.2
  (vr2.1, r3)

/-- The `ZorkGame._parse_command`: direction words first, then the verb
map; an unrecognized first word leaves both verb and direction
empty. -/
def _parse_command (s : GameState) (user_input : String) : ParsedCommand :=
  match splitWords user_input with
  | [] => { raw_input := user_input }
  | w :: rest =>
    match aget directionMap w with
    | some d => { raw_input := user_input, direction := some d }
    | none =>
      match aget verbMap w with
      | none => { raw_input := user_input }
      | some v =>
        if rest.length > 0 then
          let remaining := pyJoin rest
          let vr := applyRewrites v remaining
          { raw_input := user_input, verb := some vr.1,
            direct_object := _find_object s vr.2 }
        else { raw_input := user_input, verb := some v }

/-! ### Light -/

/-- Inventory half of `_can_see`: scan the carried ids in order, a
missing id is a `KeyError`. -/
def lightInList (objs : List (String × GameObject)) : List String → Option Bool
  | [] => some false
  | oid :: t =>
    match aget objs oid with
    | none => none
    | some o =>
      if hasFlag o.flags ObjectFlag.LIGHT && hasFlag o.flags ObjectFlag.TURNEDON then
        some true
      else lightInList objs t

/-- The `ZorkGame._can_see`: lit room, else an active light source carried
or present. -/
def _can_see (s : GameState) : Option Bool :=
  match aget s.rooms s.current_room with
  | none => none
  | some room =>
    if hasFlag room.flags RoomFlag.LIT then some true
    else
      match lightInList s.objects s.player_inventory with
      | none => none
      | some true => some true
      | some false =>
        some (s.objects.any (fun p => p.2.location == some s.current_room &&
          hasFlag p.2.flags ObjectFlag.LIGHT && hasFlag p.2.flags ObjectFlag.TURNEDON))

/-! ### Looking -/

/-- Object-listing loop of `_look`: special prints for the trap door,
the grating hidden under the leaves (a lookup of "leaves" that can
raise `KeyError`), one-time initial text, and a list of ordinary
objects to list afterwards.  `visited` is the already-updated visited
set the source consults. -/
def lookObjLoop (objs : List (String × GameObject)) (cur roomId : String)
    (visited : List String) :
    List (String × GameObject) → Option (List String × List GameObject)
  | [] => some ([], [])
  | (oid, obj) :: t =>
    if obj.location == some cur then
      if oid == "trap_door" then
        match lookObjLoop objs cur roomId visited t with
        | none => none
        | some (outs, ros) =>
          if hasFlag obj.flags ObjectFlag.OPEN then
            some ("There is an open trap door here." :: outs, ros)
          else
            some ("There is a closed trap door here." :: outs, ros)
      else if oid == "grating" then
        match aget objs "leaves" with
        | none => none
        | some leaves =>
          if leaves.location != some "clearing" then
            lookObjLoop objs cur roomId visited t
          else if obj.initial_text ≠ "" && !visited.contains roomId then
            match lookObjLoop objs cur roomId visited t with
            | none => none
            | some (outs, ros) => some (obj.initial_text :: outs, ros)
          else
            match lookObjLoop objs cur roomId visited t with
            | none => none
            | some (outs, ros) => some (outs, ros ++ [obj])
      else if obj.initial_text ≠ "" && !visited.contains roomId then
        match lookObjLoop objs cur roomId visited t with
        | none => none
        | some (outs, ros) => some (obj.initial_text :: outs, ros)
      else
        match lookObjLoop objs cur roomId visited t with
        | none => none
        | some (outs, ros) => some (outs, ros ++ [obj])
    else lookObjLoop objs cur roomId visited t

/-- Container-contents loop of `_look`. -/
def lookContainers (objs : List (String × GameObject)) (cur : String) :
    List (String × GameObject) → List String
  | [] => []
  | (oid, obj) :: t =>
    if obj.location == some cur && hasFlag obj.flags ObjectFlag.CONTAINER &&
       (hasFlag obj.flags ObjectFlag.OPEN || hasFlag obj.flags ObjectFlag.TRANSPARENT) then
      let contents := objs.filter (fun p => p.2.location == some oid)
      if contents ≠ [] then
        (if hasFlag obj.flags ObjectFlag.TRANSPARENT then
          "The " ++ obj.name ++ " contains:"
        else
          "The " ++ obj.name ++ " is open. It contains:") ::
        contents.map (fun p => "  A " ++ p.2.description) ++ lookContainers objs cur t
      else lookContainers objs cur t
    else lookContainers objs cur t

/-- Ids excluded from the ordinary object listing of `_look`. -/
def lookExcluded : List String :=
  ["case", "rug", "window", "control_panel", "prayer", "mirror_south",
   "mirror_north", "chimney", "chain", "switch", "green_button", "red_button"]

/-- The `ZorkGame._look` for the `command = None` call sites (movement,
death, restore): returns the printed lines and marks the room
visited; in darkness it prints nothing and changes nothing. -/
def _look (s : GameState) : Option (GameState × List String) :=
  match aget s.rooms s.current_room with
  | none => none
  | some room =>
    match _can_see s with
    | none => none
    | some false => some (s, [])
    | some true =>
      let nameOut := if s.visited_rooms.contains room.id && !s.verbose then
        [room.name] else [room.name, room.description]
      let visited := visitedAdd s.visited_rooms room.id
      let loudOut := if s.current_room == "loud_room" then
        ["The sound level is: " ++ toString s.loud_room_level] else []
      let actorOut := (s.actors.filter
          (fun p => p.2.location == some s.current_room && p.2.active)).map
        (fun p => (aget p.2.messages "first_encounter").getD p.2.description)
      match lookObjLoop s.objects s.current_room room.id visited s.objects with
      | none => none
      | some (objOut, ros) =>
        let contOut := lookContainers s.objects s.current_room s.objects
        let roOut := (ros.filter (fun o => !lookExcluded.contains o.id)).map
          (fun o => "There is a " ++ o.description ++ " here.")
        some ({ s with visited_rooms := visited },
          nameOut ++ loudOut ++ actorOut ++ objOut ++ contOut ++ roOut)

/-! ### Death and the grue -/

/-- Relocation applied by `_death` to each carried object. -/
def deathRelocate (room : String) (o : GameObject) : GameObject :=
  { o with location := some room }

/-- Inventory-drop loop of `_death`: every carried object is relocated
to the room where death occurred (a missing id is a `KeyError`); the
inventory ends empty. -/
def deathDropAll (room : String) : List String → List (String × GameObject) →
    Option (List (String × GameObject))
  | [], objs => some objs
  | oid :: t, objs =>
    match aget objs oid with
    | none => none
    | some _ =>
      deathDropAll room t (amod objs oid (deathRelocate room))

/-- The `ZorkGame._death`: print the message and banner, drop the whole
inventory in the death room, respawn at west_of_house and look. -/
def _death (s : GameState) (message : String) : Option (GameState × List String) :=
  match deathDropAll s.current_room s.player_inventory s.objects with
  | none => none
  | some objs =>
    let s1 := { s with
      deaths := s.deaths + 1
      objects := objs
      player_inventory := []
      current_room := "west_of_house" }
    match _look s1 with
    | none => none
    | some (s2, lookOut) =>
      some (s2, message ::
        "\n    ****  You have died  ****\n" ::
        "As you take your last breath, you feel yourself being pulled from your body." ::
        "You float upward, watching your corpse below. Suddenly, you find yourself..." ::
        "" :: lookOut)

/-- Draw of `random.randint(a, b)`: one value of the stream, mapped
into `[a, b]`, and the advanced stream. -/
def randint (rng : Nat → Nat) (a b : Nat) : Nat × (Nat → Nat) :=
  (a + rng 0 % (b - a + 1), fun n => rng (n + 1))

/-- The `ZorkGame._check_light`: in a dark room without light, warn about
the grue and kill the player with probability 1/4. -/
def _check_light (rng : Nat → Nat) (s : GameState) :
    Option ((Nat → Nat) × GameState × List String) :=
  match aget s.rooms s.current_room with
  | none => none
  | some room =>
    if hasFlag room.flags RoomFlag.LIT then some (rng, s, [])
    else
      match _can_see s with
      | none => none
      | some true => some (rng, s, [])
      | some false =>
        let roll := randint rng 1 4
        if roll.1 == 1 then
          match _death s "You have died." with
          | none => none
          | some (s1, out) =>
            some (roll.2, s1,
              "It is pitch black. You are likely to be eaten by a grue." ::
              "\nOh, no! You have walked into the slavering fangs of a lurking grue!" :: out)
        else
          some (roll.2, s, ["It is pitch black. You are likely to be eaten by a grue."])

/-! ### Handlers -/

/-- The `ZorkGame._take`: actors refuse, then takeable / not-held /
closed-container / load checks; on success the object moves to
"player" and a treasure adds its value to the score. -/
def _take (s : GameState) (command : ParsedCommand) : Option (GameState × List String) :=
  match command.direct_object with
  | none => some (s, ["What do you want to take?"])
  | some obj_id =>
    if (aget s.actors obj_id).isSome then
      some (s, ["The " ++ obj_id ++ " is too heavy."])
    else
      match aget s.objects obj_id with
      | none => none
      | some obj =>
        if !hasFlag obj.flags ObjectFlag.TAKEABLE then
          some (s, ["You can\x27t take that."])
        else if s.player_inventory.contains obj_id then
          some (s, ["You already have that."])
        else
          let containerBlocked :=
            match obj.location with
            | none => false
            | some loc =>
              match aget s.objects loc with
              | none => false
              | some container =>
                hasFlag container.flags ObjectFlag.CONTAINER &&
                  !(hasFlag container.flags ObjectFlag.OPEN ||
                    hasFlag container.flags ObjectFlag.TRANSPARENT)
          if containerBlocked then
            some (s, ["You can\x27t see any " ++ obj.name ++ " here."])
          else if s.player_inventory.length ≥ 7 then
            some (s, ["Your load is too heavy."])
          else
            let s1 := { s with
              player_inventory := s.player_inventory ++ [obj_id]
              objects := amod s.objects obj_id
                (fun o => { o with location := some "player" }) }
            if hasFlag obj.flags ObjectFlag.TREASURE then
              some ({ s1 with score := s1.score + obj.value }, ["Taken."])
            else
              some (s1, ["Taken."])

/-- The `ZorkGame._drop`: remove from inventory, place in the current
room; in the living room an open trophy case captures a dropped
treasure, bumping the deposit counter and the score. -/
def _drop (s : GameState) (command : ParsedCommand) : Option (GameState × List String) :=
  match command.direct_object with
  | none => some (s, ["What do you want to drop?"])
  | some obj_id =>
    if !s.player_inventory.contains obj_id then
      some (s, ["You don\x27t have that."])
    else
      match aget s.objects obj_id with
      | none => none
      | some obj =>
        let s1 := { s with
          player_inventory := s.player_inventory.erase obj_id
          objects := amod s.objects obj_id
            (fun o => { o with location := some s.current_room }) }
        if s.current_room == "living_room" then
          match aget s1.objects "case" with
          | none => none
          | some case =>
            if hasFlag case.flags ObjectFlag.OPEN && hasFlag obj.flags ObjectFlag.TREASURE then
              some ({ s1 with
                  objects := amod s1.objects obj_id
                    (fun o => { o with location := some "case" })
                  treasures_deposited := s1.treasures_deposited + 1
                  score := s1.score + obj.value },
                ["Dropped.", "The " ++ obj.name ++ " is now in the trophy case."])
            else some (s1, ["Dropped."])
        else some (s1, ["Dropped."])

/-- The `ZorkGame._open`: window and egg special cases, openable check,
already-open check, locked check, then open+unclose with revealed
contents; the coffin and the coal machine have special follow-ups. -/
def _open (s : GameState) (command : ParsedCommand) : Option (GameState × List String) :=
  match command.direct_object with
  | none => some (s, ["What do you want to open?"])
  | some obj_id =>
    match aget s.objects obj_id with
    | none => none
    | some obj =>
      if obj_id == "window" then
        let s1 := { s with
          objects := amod s.objects obj_id
            (fun o => { o with flags := setFlagBit o.flags ObjectFlag.OPEN }) }
        match aget s1.rooms "behind_house" with
        | none => none
        | some _ =>
          let addExits := fun (r : Room) =>
            { r with exits := dput (dput r.exits Direction.WEST "kitchen") Direction.IN "kitchen" }
          some ({ s1 with rooms := amod s1.rooms "behind_house" addExits },
            ["With great effort, you open the window far enough to allow entry."])
      else if obj_id == "jeweled_egg" then
        if hasFlag obj.flags ObjectFlag.OPEN then
          some (s, ["It\x27s already open."])
        else
          some (s, ["You have neither the tools nor the expertise."])
      else if !(hasFlag obj.flags ObjectFlag.CONTAINER || hasFlag obj.flags ObjectFlag.DOOR) then
        some (s, ["You can\x27t open that."])
      else if hasFlag obj.flags ObjectFlag.OPEN then
        some (s, ["It\x27s already open."])
      else if hasFlag obj.flags ObjectFlag.LOCKED then
        some (s, ["It\x27s locked."])
      else
        let openUnclose := fun (o : GameObject) =>
          { o with flags := clearFlagBit (setFlagBit o.flags ObjectFlag.OPEN) ObjectFlag.CLOSED }
        let s1 := { s with objects := amod s.objects obj_id openUnclose }
        let contentsOut :=
          if hasFlag obj.flags ObjectFlag.CONTAINER then
            let contents := s1.objects.filter (fun p => p.2.location == some obj_id)
            if contents ≠ [] then
              ("Opening the " ++ obj.name ++ " reveals:") ::
                contents.map (fun p => "  A " ++ p.2.description)
            else []
          else []
        let s2 := if obj_id == "coffin" then { s1 with coffin_open := true } else s1
        if obj_id == "machine" then
          match aget s2.objects "pile_of_coal" with
          | none => none
          | some coal =>
            if coal.location == some "machine" then
              match aget s2.objects "diamond" with
              | none => none
              | some _ =>
                let objs := amod s2.objects "diamond"
                  (fun o => { o with location := some "machine" })
                some ({ s2 with objects := adel objs "pile_of_coal" },
                  "Opened." :: contentsOut ++
                    ["The machine comes to life and creates a beautiful diamond!"])
            else some (s2, "Opened." :: contentsOut)
        else some (s2, "Opened." :: contentsOut)

/-- The `ZorkGame._unlock`: only the revealed grating unlocks, and only
with the skeleton key in hand; success clears its LOCKED flag and
adds the up exit from the grating room to the clearing. -/
def _unlock (s : GameState) (command : ParsedCommand) : Option (GameState × List String) :=
  match command.direct_object with
  | none => some (s, ["What do you want to unlock?"])
  | some obj_id =>
    if obj_id == "grating" then
      match aget s.objects "grating" with
      | none => none
      | some grating =>
        if grating.location ≠ none then
          if s.player_inventory.contains "skeleton_key" then
            match aget s.rooms "grating_room" with
            | none => none
            | some _ =>
              some ({ s with
                  grating_unlocked := true
                  objects := amod s.objects "grating"
                    (fun o => { o with flags := clearFlagBit o.flags ObjectFlag.LOCKED })
                  rooms := amod s.rooms "grating_room"
                    (fun r => { r with exits := dput r.exits Direction.UP "clearing" }) },
                ["The grating is unlocked."])
          else some (s, ["You don\x27t have the right key."])
        else some (s, ["You can\x27t unlock that."])
    else some (s, ["You can\x27t unlock that."])

/-! ### Movement -/

/-- The `ZorkGame._go`: the special cases (trap door, grating, window,
nailed door, cyclops, troll, spirits, deep water, rainbow, slide) in
source order, then the exit map, where a self-referencing target is
the blocked-exit convention. -/
def _go (rng : Nat → Nat) (s : GameState) (direction : Direction) :
    Option ((Nat → Nat) × GameState × List String) :=
  if s.current_room == "living_room" && direction == Direction.DOWN then
    if s.objects.any (fun p => p.2.location == some "living_room" && p.2.id == "trap_door") then
      match aget s.objects "trap_door" with
      | none => none
      | some trap_door =>
        if hasFlag trap_door.flags ObjectFlag.OPEN then
          let s1 := { s with current_room := "cellar" }
          match _check_light rng s1 with
          | none => none
          | some (rng1, s2, out1) =>
            match _look s2 with
            | none => none
            | some (s3, out2) => some (rng1, s3, out1 ++ out2)
        else some (rng, s, ["The trap door is closed."])
    else some (rng, s, ["You can\x27t go that way."])
  else if s.current_room == "grating_room" && direction == Direction.UP then
    if s.grating_unlocked then
      match _look { s with current_room := "clearing" } with
      | none => none
      | some (s1, out) => some (rng, s1, out)
    else some (rng, s, ["The grating is locked."])
  else if s.current_room == "behind_house" &&
      (direction == Direction.WEST || direction == Direction.IN) then
    match aget s.objects "window" with
    | none => none
    | some window =>
      if hasFlag window.flags ObjectFlag.OPEN then
        match _look { s with current_room := "kitchen" } with
        | none => none
        | some (s1, out) => some (rng, s1, out)
      else some (rng, s, ["The window is closed."])
  else if s.current_room == "living_room" && direction == Direction.WEST then
    if !s.cyclops_fled then some (rng, s, ["The door is nailed shut."])
    else
      match _look { s with current_room := "strange_passage" } with
      | none => none
      | some (s1, out) => some (rng, s1, out)
  else
    let blockedCyclops :=
      if s.current_room == "cyclops_room" && direction == Direction.UP then
        match aget s.actors "cyclops" with
        | none => none
        | some cyclops =>
          some (cyclops.location == some "cyclops_room" && cyclops.active)
      else some false
    match blockedCyclops with
    | none => none
    | some true => some (rng, s, ["The cyclops blocks the staircase."])
    | some false =>
      let blockedTroll :=
        if s.current_room == "troll_room" then
          match aget s.actors "troll" with
          | none => none
          | some troll =>
            some (troll.location == some "troll_room" && troll.active && !s.troll_payment)
        else some false
      match blockedTroll with
      | none => none
      | some true => some (rng, s, ["The troll blocks your way!"])
      | some false =>
        if s.current_room == "entrance_to_hades" && direction == Direction.SOUTH &&
            !s.spirits_released then
          match aget s.actors "spirits" with
          | none => none
          | some spirits =>
            match aget spirits.messages "block" with
            | none => none
            | some msg => some (rng, s, [msg])
        else if s.current_room == "reservoir" && !s.dam_open then
          some (rng, s, ["You can\x27t swim in the deep water."])
        else if s.current_room == "end_of_rainbow" && direction == Direction.EAST &&
            !s.rainbow_solid then
          some (rng, s, ["Can you walk on water vapor?"])
        else if s.current_room == "slide_room" && direction == Direction.DOWN then
          match _look { s with current_room := "cellar" } with
          | none => none
          | some (s1, out) => some (rng, s1, "Wheeeee!" :: out)
        else
          match aget s.rooms s.current_room with
          | none => none
          | some room =>
            match dget room.exits direction with
            | some new_room =>
              if new_room == s.current_room then
                some (rng, s, ["You can\x27t go that way."])
              else
                let s1 := { s with current_room := new_room }
                match _check_light rng s1 with
                | none => none
                | some (rng1, s2, out1) =>
                  match _look s2 with
                  | none => none
                  | some (s3, out2) => some (rng1, s3, out1 ++ out2)
            | none => some (rng, s, ["You can\x27t go that way."])

/-! ### Dispatch and the turn of the main loop -/

/-- The `ZorkGame._execute_command`: direction moves first; a command with
no verb is not understood; otherwise dispatch on the verb.  Only the
handlers the verification needs are embedded; dispatching to any
other handler is left unmodelled (`none`). -/
def _execute_command (rng : Nat → Nat) (s : GameState) (command : ParsedCommand) :
    Option ((Nat → Nat) × GameState × List String) :=
  match command.direction with
  | some d => _go rng s d
  | none =>
    match command.verb with
    | none => some (rng, s, ["I don\x27t understand that."])
    | some VerbType.TAKE => (_take s command).map (fun p => (rng, p.1, p.2))
    | some VerbType.DROP => (_drop s command).map (fun p => (rng, p.1, p.2))
    | some VerbType.OPEN => (_open s command).map (fun p => (rng, p.1, p.2))
    | some VerbType.UNLOCK => (_unlock s command).map (fun p => (rng, p.1, p.2))
    | some _ => none

/-- End-of-iteration bookkeeping of the main loop in `start`: the move
counter always increments, then the lamp burns fuel, warning at 30
and dying at 0 (which clears the lamp flags and re-checks light). -/
def turnTick (rng : Nat → Nat) (s : GameState) :
    Option ((Nat → Nat) × GameState × List String) :=
  let s2 := { s with moves := s.moves + 1 }
  if s2.lamp_on then
    let s3 := { s2 with lamp_life := s2.lamp_life - 1 }
    if s3.lamp_life == 30 then some (rng, s3, ["Your lamp is getting dim."])
    else if s3.lamp_life == 0 then
      match aget s3.objects "lamp" with
      | none => none
      | some _ =>
        let clearLamp := fun (o : GameObject) =>
          { o with flags := clearFlagBit (clearFlagBit o.flags ObjectFlag.LIGHT) ObjectFlag.TURNEDON }
        let s4 := { s3 with
          lamp_on := false
          objects := amod s3.objects "lamp" clearLamp }
        match _check_light rng s4 with
        | none => none
        | some (rng1, s5, out) =>
          some (rng1, s5, "Your lamp has run out of power." :: out)
    else some (rng, s3, [])
  else some (rng, s2, [])

/-- One iteration of the main loop in `start` on one input line:
strip and lower the line, skip it when blank, parse, execute, then
run the turn bookkeeping. -/
def turn (rng : Nat → Nat) (s : GameState) (line : String) :
    Option ((Nat → Nat) × GameState × List String) :=
  let user_input := strToLower (pyStrip line)
  if user_input == "" then some (rng, s, [])
  else
    let command := _parse_command s user_input
    match _execute_command rng s command with
    | none => none
    | some (rng1, s1, out1) =>
      match turnTick rng1 s1 with
      | none => none
      | some (rng2, s2, out2) => some (rng2, s2, out1 ++ out2)

/-! ### Persistence (logical schema of `_save` / `_restore`)
The on-disk JSON encoding is outside the model; a loaded save is
modelled as a record of optional fields, `none` marking a key missing
from the file.  `save_data[k]` raises `KeyError` on a missing key,
`save_data.get(k, d)` defaults it. -/

/-- Per-object record of the save schema. -/
structure ObjSave where
  location : Option String
  flags : Nat
  value : Option Nat
deriving DecidableEq

/-- Per-actor record of the save schema. -/
structure ActorSave where
  location : Option String
  health : Int
  active : Bool
deriving DecidableEq

/-- A parsed save file: each top-level key may be absent. -/
structure RawSave where
  player_name : Option String := none
  current_room : Option String := none
  inventory : Option (List String) := none
  score : Option Nat := none
  moves : Option Nat := none
  deaths : Option Nat := none
  visited_rooms : Option (List String) := none
  lamp_on : Option Bool := none
  lamp_life : Option Int := none
  grating_unlocked : Option Bool := none
  trap_door_open : Option Bool := none
  rainbow_solid : Option Bool := none
  dam_open : Option Bool := none
  loud_room_level : Option Int := none
  coffin_open : Option Bool := none
  bell_rung : Option Bool := none
  candles_lit : Option Bool := none
  book_read : Option Bool := none
  spirits_released : Option Bool := none
  cyclops_fled : Option Bool := none
  mirror_broken : Option Bool := none
  troll_payment : Option Bool := none
  thief_here : Option Bool := none
  treasures_deposited : Option Nat := none
  objects : Option (List (String × ObjSave)) := none
  actors : Option (List (String × ActorSave)) := none
deriving DecidableEq

/-- The `save_data` dictionary `_save` writes out: every key present,
object and actor states projected entry by entry. -/
def saveData (s : GameState) : RawSave where
  player_name := some s.player_name
  current_room := some s.current_room
  inventory := some s.player_inventory
  score := some s.score
  moves := some s.moves
  deaths := some s.deaths
  visited_rooms := some s.visited_rooms
  lamp_on := some s.lamp_on
  lamp_life := some s.lamp_life
  grating_unlocked := some s.grating_unlocked
  trap_door_open := some s.trap_door_open
  rainbow_solid := some s.rainbow_solid
  dam_open := some s.dam_open
  loud_room_level := some s.loud_room_level
  coffin_open := some s.coffin_open
  bell_rung := some s.bell_rung
  candles_lit := some s.candles_lit
  book_read := some s.book_read
  spirits_released := some s.spirits_released
  cyclops_fled := some s.cyclops_fled
  mirror_broken := some s.mirror_broken
  troll_payment := some s.troll_payment
  thief_here := some s.thief_here
  treasures_deposited := some s.treasures_deposited
  objects := some (s.objects.map (fun p => (p.1,
    { location := p.2.location, flags := p.2.flags, value := some p.2.value })))
  actors := some (s.actors.map (fun p => (p.1,
    { location := p.2.location, health := p.2.health, active := p.2.active })))

/-- The per-object update `_restore` applies: location and flags from
the save, the value only when the save has one. -/
def objSaveApply (d : ObjSave) (o : GameObject) : GameObject :=
  { o with location := d.location, flags := d.flags, value := d.value.getD o.value }

/-- The per-actor update `_restore` applies. -/
def actorSaveApply (d : ActorSave) (a : Actor) : Actor :=
  { a with location := d.location, health := d.health, active := d.active }

/-- Object-restoring loop of `_restore`: saved entries update matching
store entries in place. -/
def restoreObjLoop (objs : List (String × GameObject)) :
    List (String × ObjSave) → List (String × GameObject)
  | [] => objs
  | (oid, d) :: t =>
    if (aget objs oid).isSome then
      restoreObjLoop (amod objs oid (objSaveApply d)) t
    else restoreObjLoop objs t

/-- Actor-restoring loop of `_restore`. -/
def restoreActorLoop (actors : List (String × Actor)) :
    List (String × ActorSave) → List (String × Actor)
  | [] => actors
  | (aid, d) :: t =>
    if (aget actors aid).isSome then
      restoreActorLoop (amod actors aid (actorSaveApply d)) t
    else restoreActorLoop actors t

/-- The assignment sequence of `_restore`, in source order.  Keys read
with `save_data[k]` abort with a `KeyError` naming the key — the
assignments already made stay in place; keys read with `.get` take
defaults when absent. -/
def restoreAssign (raw : RawSave) (s : GameState) : GameState × Option String :=
  let s := { s with player_name := raw.player_name.getD "Adventurer" }
  match raw.current_room with
  | none => (s, some "\x27current_room\x27")
  | some current_room =>
  let s := { s with current_room := current_room }
  match raw.inventory with
  | none => (s, some "\x27inventory\x27")
  | some inventory =>
  let s := { s with player_inventory := inventory }
  match raw.score with
  | none => (s, some "\x27score\x27")
  | some score =>
  let s := { s with score := score }
  match raw.moves with
  | none => (s, some "\x27moves\x27")
  | some moves =>
  let s := { s with moves := moves, deaths := raw.deaths.getD 0 }
  match raw.visited_rooms with
  | none => (s, some "\x27visited_rooms\x27")
  | some visited_rooms =>
  let s := { s with visited_rooms := visited_rooms }
  match raw.lamp_on with
  | none => (s, some "\x27lamp_on\x27")
  | some lamp_on =>
  let s := { s with
    lamp_on := lamp_on
    lamp_life := raw.lamp_life.getD 330
    grating_unlocked := raw.grating_unlocked.getD false
    trap_door_open := raw.trap_door_open.getD false
    rainbow_solid := raw.rainbow_solid.getD false
    dam_open := raw.dam_open.getD false
    loud_room_level := raw.loud_room_level.getD 4
    coffin_open := raw.coffin_open.getD false
    bell_rung := raw.bell_rung.getD false
    candles_lit := raw.candles_lit.getD false
    book_read := raw.book_read.getD false
    spirits_released := raw.spirits_released.getD false
    cyclops_fled := raw.cyclops_fled.getD false
    mirror_broken := raw.mirror_broken.getD false
    troll_payment := raw.troll_payment.getD false
    thief_here := raw.thief_here.getD false
    treasures_deposited := raw.treasures_deposited.getD 0 }
  match raw.objects with
  | none => (s, some "\x27objects\x27")
  | some objSaves =>
  let s := { s with objects := restoreObjLoop s.objects objSaves }
  let s := { s with actors := restoreActorLoop s.actors (raw.actors.getD []) }
  (s, none)

/-- What `_restore` is given to work on: no file at the given name, a
file that does not parse, or a parsed save record. -/
inductive RestoreInput where
  | noFile
  | badJson (msg : String)
  | fileData (raw : RawSave)

/-- The `ZorkGame._restore`: a missing file gets its own message; any
other failure prints the generic message with the error text and
keeps whatever assignments were already made; success prints "Game
restored." and looks around.  (A `KeyError` inside that final look
would be caught by the generic handler in the source; that corner is
left unmodelled.) -/
def _restore (inp : RestoreInput) (s : GameState) : Option (GameState × List String) :=
  match inp with
  | RestoreInput.noFile => some (s, ["Restore failed. File not found."])
  | RestoreInput.badJson msg => some (s, ["Restore failed: " ++ msg])
  | RestoreInput.fileData raw =>
    match restoreAssign raw s with
    | (s1, some err) => some (s1, ["Restore failed: " ++ err])
    | (s1, none) =>
      match _look s1 with
      | none => none
      | some (s2, out) => some (s2, "Game restored." :: out)

/-! ### Derived expressions and concrete scenario states used by the
verification -/

/-- The lines `_look` prints after the room name and description:
sound level, actor announcements, the object-loop prints, container
contents, and the ordinary object listing. -/
def lookTail (s : GameState) (objOut : List String) (ros : List GameObject) : List String :=
  (if s.current_room == "loud_room" then
    ["The sound level is: " ++ toString s.loud_room_level] else []) ++
  ((s.actors.filter (fun p => p.2.location == some s.current_room && p.2.active)).map
    (fun p => (aget p.2.messages "first_encounter").getD p.2.description) ++
  (objOut ++ (lookContainers s.objects s.current_room s.objects ++
  (ros.filter (fun o => !lookExcluded.contains o.id)).map
    (fun o => "There is a " ++ o.description ++ " here."))))

/-- The initial state moved to the gallery, where the painting (a
treasure worth 4 points) hangs. -/
def c1GalleryState : GameState := { initState with current_room := "gallery" }

/-- The command `_take`/`_drop` receive for the painting. -/
def c1PaintingCmd : ParsedCommand := { direct_object := some "painting" }

/-- Take the painting, drop it, take it again, all in the gallery. -/
def c1TakeDropTake : Option GameState := do
  let r1 ← _take c1GalleryState c1PaintingCmd
  let r2 ← _drop r1.1 c1PaintingCmd
  let r3 ← _take r2.1 c1PaintingCmd
  pure r3.1

/-- The command `_take`/`_drop` receive for the painting. -/
def c2PaintingCmd : ParsedCommand := { direct_object := some "painting" }

/-- The initial state moved to the living room, carrying the painting. -/
def c2LivingRoomState : GameState := { initState with
  current_room := "living_room"
  player_inventory := ["painting"]
  objects := amod initState.objects "painting"
    (fun o => { o with location := some "player" }) }

/-- Deposit the painting in the open trophy case, take it back out,
and deposit it again. -/
def c2DepositTwice : Option GameState := do
  let r1 ← _drop c2LivingRoomState c2PaintingCmd
  let r2 ← _take r1.1 c2PaintingCmd
  let r3 ← _drop r2.1 c2PaintingCmd
  pure r3.1

/-- A save record containing only a current room: parseable, but
missing the required `inventory` key. -/
def c4BadSave : RawSave := { current_room := some "kitchen" }

/-- A well-formed save missing every optional (newer) field. -/
def c4MinimalSave : RawSave := { c4BadSave with
  inventory := some []
  score := some 0
  moves := some 0
  visited_rooms := some []
  lamp_on := some false
  objects := some [] }

/-- The initial state with the grating revealed in the clearing and
the skeleton key in hand. -/
def c8KeyState : GameState := { initState with
  player_inventory := ["skeleton_key"]
  objects := amod initState.objects "grating"
    (fun o => { o with location := some "clearing" }) }

/-- The command `_open`/`_unlock` receive for the grating. -/
def c8GratingCmd : ParsedCommand := { direct_object := some "grating" }

/-- The `west_of_house` room record of the initial world. -/
def westOfHouseRoom : Room :=
  { id := "west_of_house"
    name := "West of House"
    description := "You are standing in an open field west of a white house, with a boarded front door."
    flags := 17
    exits := [(Direction.NORTH, "north_of_house"), (Direction.SOUTH, "south_of_house"),
      (Direction.WEST, "forest_1"), (Direction.EAST, "west_of_house")] }

/-- The initial state moved to the cellar carrying the welcome mat. -/
def c7CellarState : GameState := { initState with
  current_room := "cellar"
  player_inventory := ["mat"]
  objects := amod initState.objects "mat"
    (fun o => { o with location := some "player" }) }

/-! ### Lemmas about the dictionary operations -/

theorem aget_amod_self {α : Type} (l : List (String × α)) (k : String) (f : α → α) :
    aget (amod l k f) k = (aget l k).map f := by
  induction l with
  | nil => rfl
  | cons p t ih =>
    have e1 : amod (p :: t) k f = (if p.1 = k then (p.1, f p.2) else p) :: amod t k f := rfl
    have e3 : aget (p :: t) k = if p.1 = k then some p.2 else aget t k := rfl
    rw [e1, e3]
    by_cases h : p.1 = k
    · rw [if_pos h]
      have e2 : aget ((p.1, f p.2) :: amod t k f) k =
          if p.1 = k then some (f p.2) else aget (amod t k f) k := rfl
      rw [e2, if_pos h, if_pos h]
      rfl
    · rw [if_neg h]
      have e2 : aget (p :: amod t k f) k =
          if p.1 = k then some p.2 else aget (amod t k f) k := rfl
      rw [e2, if_neg h, if_neg h, ih]

theorem aget_amod_ne {α : Type} (l : List (String × α)) (k k' : String) (f : α → α)
    (h : k ≠ k') : aget (amod l k f) k' = aget l k' := by
  induction l with
  | nil => rfl
  | cons p t ih =>
    have e1 : amod (p :: t) k f = (if p.1 = k then (p.1, f p.2) else p) :: amod t k f := rfl
    have e3 : aget (p :: t) k' = if p.1 = k' then some p.2 else aget t k' := rfl
    rw [e1, e3]
    by_cases hpk : p.1 = k
    · have hp : p.1 ≠ k' := fun hh => h (hpk ▸ hh)
      rw [if_pos hpk]
      have e2 : aget ((p.1, f p.2) :: amod t k f) k' =
          if p.1 = k' then some (f p.2) else aget (amod t k f) k' := rfl
      rw [e2, if_neg hp, if_neg hp, ih]
    · rw [if_neg hpk]
      have e2 : aget (p :: amod t k f) k' =
          if p.1 = k' then some p.2 else aget (amod t k f) k' := rfl
      rw [e2]
      by_cases hp : p.1 = k'
      · rw [if_pos hp, if_pos hp]
      · rw [if_neg hp, if_neg hp, ih]

theorem aget_amod_isSome {α : Type} (l : List (String × α)) (k k' : String) (f : α → α) :
    (aget (amod l k f) k').isSome = (aget l k').isSome := by
  by_cases h : k = k'
  · rw [← h, aget_amod_self]
    cases aget l k <;> rfl
  · rw [aget_amod_ne l k k' f h]

theorem amod_eq_self {α : Type} (l : List (String × α)) (k : String) (f : α → α)
    (h : ∀ q ∈ l, q.1 = k → f q.2 = q.2) : amod l k f = l := by
  induction l with
  | nil => rfl
  | cons p t ih =>
    have ht : amod t k f = t := ih (fun q hq hk => h q (List.mem_cons_of_mem p hq) hk)
    by_cases hp : p.1 = k
    · subst hp
      have hf : f p.2 = p.2 := h p (List.mem_cons_self p t) rfl
      simp [amod, hf, ht]
    · simp [amod, hp, ht]

theorem nodup_key_unique {α : Type} {l : List (String × α)}
    (h : (l.map Prod.fst).Nodup) {k : String} {v v' : α}
    (h1 : (k, v) ∈ l) (h2 : (k, v') ∈ l) : v = v' := by
  induction l with
  | nil => cases h1
  | cons p t ih =>
    rw [List.map_cons, List.nodup_cons] at h
    rcases List.mem_cons.1 h1 with e1 | m1
    · rcases List.mem_cons.1 h2 with e2 | m2
      · rw [← e1] at e2
        exact (congrArg Prod.snd e2).symm
      · exact absurd (List.mem_map.2 ⟨(k, v'), m2, by rw [← e1]⟩) h.1
    · rcases List.mem_cons.1 h2 with e2 | m2
      · exact absurd (List.mem_map.2 ⟨(k, v), m1, by rw [← e2]⟩) h.1
      · exact ih h.2 m1 m2

theorem dget_dput (l : List (Direction × String)) (k : Direction) (v : String) :
    dget (dput l k v) k = some v := by
  induction l with
  | nil => simp [dput, dget]
  | cons p t ih =>
    by_cases hp : p.1 = k
    · simp [dput, dget, hp]
    · simp [dput, dget, hp, ih]

/-! ### Totality of the light and looking machinery -/

theorem lightInList_total (objs : List (String × GameObject)) (inv : List String)
    (h : ∀ oid ∈ inv, (aget objs oid).isSome) : (lightInList objs inv).isSome := by
  induction inv with
  | nil => simp [lightInList]
  | cons oid t ih =>
    have h0 := h oid (List.mem_cons_self oid t)
    rcases ho : aget objs oid with _ | o
    · rw [ho] at h0; cases h0
    · have ht := ih (fun x hx => h x (List.mem_cons_of_mem oid hx))
      simp only [lightInList, ho]
      split
      · simp
      · exact ht

theorem can_see_total (s : GameState) (hr : (aget s.rooms s.current_room).isSome)
    (hinv : ∀ oid ∈ s.player_inventory, (aget s.objects oid).isSome) :
    (_can_see s).isSome := by
  rcases h : aget s.rooms s.current_room with _ | room
  · rw [h] at hr; cases hr
  · have hl := lightInList_total s.objects s.player_inventory hinv
    rcases hll : lightInList s.objects s.player_inventory with _ | b
    · rw [hll] at hl; cases hl
    · cases b
      · simp only [_can_see, h, hll]
        split
        · simp
        · simp
      · simp only [_can_see, h, hll]
        split
        · simp
        · simp

theorem can_see_lit (s : GameState) (room : Room)
    (hr : aget s.rooms s.current_room = some room)
    (hlit : hasFlag room.flags RoomFlag.LIT = true) : _can_see s = some true := by
  simp [_can_see, hr, hlit]

theorem lookObjLoop_total (objs : List (String × GameObject)) (cur roomId : String)
    (visited : List String) (hlv : (aget objs "leaves").isSome)
    (l : List (String × GameObject)) :
    (lookObjLoop objs cur roomId visited l).isSome := by
  induction l with
  | nil => simp [lookObjLoop]
  | cons p t ih =>
    rcases p with ⟨oid, obj⟩
    rcases hrec : lookObjLoop objs cur roomId visited t with _ | q
    · rw [hrec] at ih; cases ih
    · rcases hl : aget objs "leaves" with _ | leaves
      · rw [hl] at hlv; cases hlv
      · simp only [lookObjLoop, hrec, hl]
        split
        · split
          · split <;> simp
          · split
            · split
              · simp
              · split <;> simp
            · split <;> simp
        · simp

theorem look_eq_of (s : GameState) (room : Room) (objOut : List String)
    (ros : List GameObject)
    (hr : aget s.rooms s.current_room = some room)
    (hsee : _can_see s = some true)
    (ho : lookObjLoop s.objects s.current_room room.id
      (visitedAdd s.visited_rooms room.id) s.objects = some (objOut, ros)) :
    _look s = some ({ s with visited_rooms := visitedAdd s.visited_rooms room.id },
      (if s.visited_rooms.contains room.id && !s.verbose then
        [room.name] else [room.name, room.description]) ++ lookTail s objOut ros) := by
  simp [_look, hr, hsee, ho, lookTail]

theorem look_visited_only (s : GameState)
    (hr : (aget s.rooms s.current_room).isSome)
    (hinv : ∀ oid ∈ s.player_inventory, (aget s.objects oid).isSome)
    (hlv : (aget s.objects "leaves").isSome) :
    ∃ v out, _look s = some ({ s with visited_rooms := v }, out) := by
  rcases hroom : aget s.rooms s.current_room with _ | room
  · rw [hroom] at hr; cases hr
  · have hsee := can_see_total s hr hinv
    rcases hcs : _can_see s with _ | b
    · rw [hcs] at hsee; cases hsee
    · cases b
      · refine ⟨s.visited_rooms, [], ?_⟩
        have : ({ s with visited_rooms := s.visited_rooms } : GameState) = s := rfl
        rw [this]
        simp [_look, hroom, hcs]
      · have hol := lookObjLoop_total s.objects s.current_room room.id
          (visitedAdd s.visited_rooms room.id) hlv s.objects
        rcases ho : lookObjLoop s.objects s.current_room room.id
            (visitedAdd s.visited_rooms room.id) s.objects with _ | q
        · rw [ho] at hol; cases hol
        · exact ⟨visitedAdd s.visited_rooms room.id, _,
            look_eq_of s room q.1 q.2 hroom hcs (by rw [ho])⟩

theorem look_lit (s : GameState) (room : Room)
    (hr : aget s.rooms s.current_room = some room)
    (hlit : hasFlag room.flags RoomFlag.LIT = true)
    (hlv : (aget s.objects "leaves").isSome) :
    ∃ v rest, _look s = some ({ s with visited_rooms := v }, room.name :: rest) := by
  have hcs := can_see_lit s room hr hlit
  have hol := lookObjLoop_total s.objects s.current_room room.id
    (visitedAdd s.visited_rooms room.id) hlv s.objects
  rcases ho : lookObjLoop s.objects s.current_room room.id
      (visitedAdd s.visited_rooms room.id) s.objects with _ | q
  · rw [ho] at hol; cases hol
  · have heq := look_eq_of s room q.1 q.2 hr hcs (by rw [ho])
    refine ⟨visitedAdd s.visited_rooms room.id,
      (if s.visited_rooms.contains room.id && !s.verbose then
        ([] : List String) else [room.description]) ++ lookTail s q.1 q.2, ?_⟩
    rw [heq]
    by_cases hb : room.id ∈ s.visited_rooms ∧ s.verbose = false
    · simp [hb]
    · simp [hb]

/-! ### Death drops the inventory in the death room -/

theorem deathDropAll_spec (room : String) (inv : List String)
    (objs : List (String × GameObject))
    (h : ∀ oid ∈ inv, (aget objs oid).isSome) :
    ∃ objs2, deathDropAll room inv objs = some objs2 ∧
      (∀ oid ∈ inv,
        aget objs2 oid = (aget objs oid).map (deathRelocate room)) ∧
      (∀ k, k ∉ inv → aget objs2 k = aget objs k) := by
  induction inv generalizing objs with
  | nil => exact ⟨objs, rfl, by simp, fun k _ => rfl⟩
  | cons oid t ih =>
    have h0 := h oid (List.mem_cons_self oid t)
    rcases ho : aget objs oid with _ | o
    · rw [ho] at h0; cases h0
    · have h1 : ∀ x ∈ t, (aget (amod objs oid (deathRelocate room)) x).isSome := by
        intro x hx
        rw [aget_amod_isSome]
        exact h x (List.mem_cons_of_mem oid hx)
      obtain ⟨objs2, he, hmem, hnot⟩ := ih (amod objs oid (deathRelocate room)) h1
      refine ⟨objs2, ?_, ?_, ?_⟩
      · simp only [deathDropAll, ho]
        exact he
      · intro x hx
        rcases List.mem_cons.1 hx with rfl | hxt
        · by_cases hot : x ∈ t
          · rw [hmem x hot, aget_amod_self]
            cases aget objs x <;> rfl
          · rw [hnot x hot, aget_amod_self]
        · rw [hmem x hxt]
          by_cases hxo : oid = x
          · subst hxo
            rw [aget_amod_self]
            cases aget objs oid <;> rfl
          · rw [aget_amod_ne _ _ _ _ hxo]
      · intro k hk
        have hk1 : oid ≠ k := fun e => hk (e ▸ List.mem_cons_self oid t)
        have hk2 : k ∉ t := fun m => hk (List.mem_cons_of_mem oid m)
        rw [hnot k hk2, aget_amod_ne _ _ _ _ hk1]

/-! ### A save restored in place is the identity on the stores -/

theorem restoreObjLoop_id (objs : List (String × GameObject))
    (entries : List (String × ObjSave))
    (h : ∀ p ∈ entries, amod objs p.1 (objSaveApply p.2) = objs) :
    restoreObjLoop objs entries = objs := by
  induction entries with
  | nil => rfl
  | cons p t ih =>
    rcases p with ⟨oid, d⟩
    have hp := h (oid, d) (List.mem_cons_self _ t)
    have ht := fun q hq => h q (List.mem_cons_of_mem (oid, d) hq)
    simp only [restoreObjLoop]
    split
    · rw [hp]
      exact ih ht
    · exact ih ht

theorem restoreActorLoop_id (actors : List (String × Actor))
    (entries : List (String × ActorSave))
    (h : ∀ p ∈ entries, amod actors p.1 (actorSaveApply p.2) = actors) :
    restoreActorLoop actors entries = actors := by
  induction entries with
  | nil => rfl
  | cons p t ih =>
    rcases p with ⟨aid, d⟩
    have hp := h (aid, d) (List.mem_cons_self _ t)
    have ht := fun q hq => h q (List.mem_cons_of_mem (aid, d) hq)
    simp only [restoreActorLoop]
    split
    · rw [hp]
      exact ih ht
    · exact ih ht

theorem restoreObjLoop_saved (objs : List (String × GameObject))
    (hnd : (objs.map Prod.fst).Nodup) :
    restoreObjLoop objs (objs.map (fun p => (p.1,
      { location := p.2.location, flags := p.2.flags, value := some p.2.value }))) = objs := by
  apply restoreObjLoop_id
  intro p hp
  obtain ⟨q, hq, rfl⟩ := List.mem_map.1 hp
  apply amod_eq_self
  intro r hr hrk
  have hr2 : (q.1, r.2) ∈ objs := by
    rw [← hrk]
    simpa using hr
  have hq2 : (q.1, q.2) ∈ objs := by simpa using hq
  have hv : r.2 = q.2 := nodup_key_unique hnd hr2 hq2
  rw [hv]
  rfl

theorem restoreActorLoop_saved (actors : List (String × Actor))
    (hnd : (actors.map Prod.fst).Nodup) :
    restoreActorLoop actors (actors.map (fun p => (p.1,
      { location := p.2.location, health := p.2.health, active := p.2.active }))) = actors := by
  apply restoreActorLoop_id
  intro p hp
  obtain ⟨q, hq, rfl⟩ := List.mem_map.1 hp
  apply amod_eq_self
  intro r hr hrk
  have hr2 : (q.1, r.2) ∈ actors := by
    rw [← hrk]
    simpa using hr
  have hq2 : (q.1, q.2) ∈ actors := by simpa using hq
  have hv : r.2 = q.2 := nodup_key_unique hnd hr2 hq2
  rw [hv]
  rfl

theorem restoreAssign_saveData (s : GameState) :
    restoreAssign (saveData s) s = ({ s with
      objects := restoreObjLoop s.objects (s.objects.map (fun p => (p.1,
        { location := p.2.location, flags := p.2.flags, value := some p.2.value })))
      actors := restoreActorLoop s.actors (s.actors.map (fun p => (p.1,
        { location := p.2.location, health := p.2.health, active := p.2.active }))) }, none) :=
  rfl

theorem restoreAssign_roundtrip (s : GameState)
    (hobj : (s.objects.map Prod.fst).Nodup)
    (hact : (s.actors.map Prod.fst).Nodup) :
    restoreAssign (saveData s) s = (s, none) := by
  rw [restoreAssign_saveData, restoreObjLoop_saved s.objects hobj,
    restoreActorLoop_saved s.actors hact]

/-! ### Claim theorems -/

/-- C10: in the `verb_map` dictionary literal the word "light" is
registered first for `TURN_ON` and re-declared later for `BURN`; the
later entry wins, so every input line whose first word is "light"
parses to the `BURN` verb (and hence never to `TURN_ON`). -/
theorem c10_light_parses_to_burn (s : GameState) (input : String)
    (rest : List String) (hw : splitWords input = "light" :: rest) :
    (_parse_command s input).verb = some VerbType.BURN := by
  have hd : aget directionMap "light" = none := by decide
  have hv : aget verbMap "light" = some VerbType.BURN := by decide
  simp only [_parse_command, hw, hd, hv]
  cases rest with
  | nil => rfl
  | cons r rs =>
    rw [if_pos (by simp)]
    rfl

/-- Witness for C10 at the concrete input line "light lamp". -/
theorem c10_light_parses_to_burn_witness :
    (_parse_command initState "light lamp").verb = some VerbType.BURN :=
  c10_light_parses_to_burn initState "light lamp" ["lamp"] rfl

/-- C9 (amended): a non-empty line whose first token is neither a
direction nor a verb prints the not-understood message and the
command itself changes nothing, but the enclosing loop still runs the
end-of-turn bookkeeping: the move counter increments and, when the
lamp is on, lamp fuel burns.  With the lamp off the state after the
turn differs from the state before only in the move counter. -/
theorem c9_unknown_first_word (rng : Nat → Nat) (s : GameState) (line : String)
    (w : String) (rest : List String)
    (hw : splitWords (strToLower (pyStrip line)) = w :: rest)
    (hd : aget directionMap w = none)
    (hv : aget verbMap w = none) :
    turn rng s line = (turnTick rng s).map
      (fun p => (p.1, p.2.1, "I don\x27t understand that." :: p.2.2)) ∧
    (s.lamp_on = false →
      turn rng s line = some (rng, { s with moves := s.moves + 1 },
        ["I don\x27t understand that."])) := by
  have hne : (strToLower (pyStrip line) == "") = false := by
    rcases h : strToLower (pyStrip line) == "" with _ | _
    · rfl
    · rw [show strToLower (pyStrip line) = "" from eq_of_beq h] at hw
      rw [show splitWords "" = ([] : List String) from rfl] at hw
      cases hw
  have hparse : _parse_command s (strToLower (pyStrip line)) =
      { raw_input := strToLower (pyStrip line) } := by
    simp only [_parse_command, hw, hd, hv]
  have hmain : turn rng s line = (turnTick rng s).map
      (fun p => (p.1, p.2.1, "I don\x27t understand that." :: p.2.2)) := by
    simp only [turn, hne, Bool.false_eq_true, if_false, hparse, _execute_command]
    cases ht : turnTick rng s with
    | none => rfl
    | some p => rfl
  refine ⟨hmain, fun hl => ?_⟩
  have htick : turnTick rng s = some (rng, { s with moves := s.moves + 1 }, []) := by
    simp only [turnTick]
    rw [if_neg (by simpa using hl)]
  rw [hmain, htick]
  rfl

/-- Witness for the amended C9 statement at the line "plugh" in the
initial state. -/
theorem c9_unknown_first_word_witness :
    turn (fun _ => 1) initState "plugh" =
      some ((fun _ => 1), { initState with moves := 1 },
        ["I don\x27t understand that."]) :=
  (c9_unknown_first_word (fun _ => 1) initState "plugh" "plugh" []
    rfl (by decide) (by decide)).2 rfl

/-- C9 counterexample: the claim says the move counter is unchanged
after an unrecognized command, but on the line "xyzzy" from the
initial state (move counter 0) the game prints the message and the
move counter becomes 1. -/
theorem c9_move_counter_counterexample :
    turn (fun _ => 0) initState "xyzzy" =
      some ((fun _ => 0), { initState with moves := 1 },
        ["I don\x27t understand that."]) ∧
    initState.moves = 0 ∧
    ({ initState with moves := 1 } : GameState).moves ≠ initState.moves := by
  refine ⟨?_, rfl, by decide⟩
  rfl

/-- C5 (code bug): the initialized world violates exit-graph closure:
the room "stream" maps west to "sluice_gate", an identifier that is
not a key of the room store and not a self-reference; going west from
the stream moves the player there and the next room lookup fails
(an uncaught `KeyError` in the source, `none` in the model). -/
theorem c5_stream_west_dangling_exit :
    (∃ r, aget initState.rooms "stream" = some r ∧
      dget r.exits Direction.WEST = some "sluice_gate") ∧
    aget initState.rooms "sluice_gate" = none ∧
    ("sluice_gate" : String) ≠ "stream" ∧
    _go (fun _ => 0) { initState with current_room := "stream" } Direction.WEST = none := by
  refine ⟨⟨_, rfl, by decide⟩, by decide, by decide, ?_⟩
  rfl


/-- C1 (amended): taking a treasure adds its point value to the score
on every successful take, not only the first: under the `_take`
preconditions (a takeable treasure lying in the current room, not
already held, room for it in the inventory) the score after the take
is the score before plus the value of the object, unconditionally. -/
theorem c1_take_treasure_scores_each_time (s : GameState) (command : ParsedCommand)
    (obj_id : String) (obj : GameObject)
    (hcmd : command.direct_object = some obj_id)
    (hact : aget s.actors obj_id = none)
    (hobj : aget s.objects obj_id = some obj)
    (htk : hasFlag obj.flags ObjectFlag.TAKEABLE = true)
    (hheld : obj_id ∉ s.player_inventory)
    (hloc : obj.location = some s.current_room)
    (hroomobj : aget s.objects s.current_room = none)
    (hlen : s.player_inventory.length < 7)
    (htr : hasFlag obj.flags ObjectFlag.TREASURE = true) :
    _take s command = some ({ s with
      player_inventory := s.player_inventory ++ [obj_id]
      objects := amod s.objects obj_id (fun o => { o with location := some "player" })
      score := s.score + obj.value }, ["Taken."]) := by
  have hc : s.player_inventory.contains obj_id = false := by
    simpa using hheld
  simp only [_take, hcmd, hact, hobj, htk, hloc, hroomobj, hc]
  simp only [Option.isSome_none, Bool.false_eq_true, if_false, Bool.not_true,
    Bool.and_self, ite_false]
  rw [if_neg (by omega)]
  simp only [htr, ite_true]

/-- Witness for the amended C1 statement: taking the painting in the
gallery raises the score from 0 to 4. -/
theorem c1_take_treasure_scores_each_time_witness :
    _take c1GalleryState c1PaintingCmd = some ({ c1GalleryState with
      player_inventory := ["painting"]
      objects := amod c1GalleryState.objects "painting"
        (fun o => { o with location := some "player" })
      score := 4 }, ["Taken."]) := by
  have h := c1_take_treasure_scores_each_time c1GalleryState c1PaintingCmd
    "painting" ((aget c1GalleryState.objects "painting").getD {id := "", name := ""})
    rfl rfl rfl rfl (by decide) rfl rfl (by decide) rfl
  exact h

/-- C1 counterexample: the claim says take-drop-take leaves the score
raised by the value exactly once, but taking the painting (value 4)
in the gallery, dropping it, and taking it again leaves the score at
8, not 4. -/
theorem c1_take_drop_take_counterexample :
    c1TakeDropTake.map (fun s => s.score) = some 8 ∧
    (aget initState.objects "painting").map (fun o => o.value) = some 4 ∧
    (8 : Nat) ≠ 4 := by
  refine ⟨?_, rfl, by decide⟩
  rfl

/-- C2 (amended): dropping a treasure in the living room while the
trophy case is open deposits it and adds its value to the score and 1
to the deposited-treasure counter on every deposit: the code keeps no
record of past deposits, so taking the treasure back out and dropping
it again counts again. -/
theorem c2_deposit_increments_each_time (s : GameState) (command : ParsedCommand)
    (obj_id : String) (obj : GameObject) (case : GameObject)
    (hcmd : command.direct_object = some obj_id)
    (hmem : obj_id ∈ s.player_inventory)
    (hobj : aget s.objects obj_id = some obj)
    (htr : hasFlag obj.flags ObjectFlag.TREASURE = true)
    (hroom : s.current_room = "living_room")
    (hne : obj_id ≠ "case")
    (hcase : aget s.objects "case" = some case)
    (hopen : hasFlag case.flags ObjectFlag.OPEN = true) :
    ∃ s2, _drop s command = some (s2,
        ["Dropped.", "The " ++ obj.name ++ " is now in the trophy case."]) ∧
      s2.treasures_deposited = s.treasures_deposited + 1 ∧
      s2.score = s.score + obj.value ∧
      aget s2.objects obj_id = some { obj with location := some "case" } := by
  have hc : s.player_inventory.contains obj_id = true := by simpa using hmem
  have hcase1 : aget (amod s.objects obj_id
      (fun o => { o with location := some s.current_room })) "case" = some case := by
    rw [aget_amod_ne _ _ _ _ hne, hcase]
  have hroomb : (s.current_room == "living_room") = true := by
    rw [hroom]; rfl
  refine ⟨{ s with
      player_inventory := s.player_inventory.erase obj_id
      objects := amod (amod s.objects obj_id
          (fun o => { o with location := some s.current_room }))
        obj_id (fun o => { o with location := some "case" })
      treasures_deposited := s.treasures_deposited + 1
      score := s.score + obj.value }, ?_, rfl, rfl, ?_⟩
  · simp only [_drop, hcmd, hc, Bool.not_true, Bool.false_eq_true, if_false, hobj,
      hroomb, if_true, hcase1, hopen, htr, Bool.and_self, ite_true]
  · rw [show (_ : GameState).objects =
      amod (amod s.objects obj_id (fun o => { o with location := some s.current_room }))
        obj_id (fun o => { o with location := some "case" }) from rfl]
    rw [aget_amod_self, aget_amod_self, hobj]
    rfl

/-- Witness for the amended C2 statement: depositing the carried
painting in the living room bumps the counter to 1 and the score to 4. -/
theorem c2_deposit_increments_each_time_witness :
    ∃ s2, _drop c2LivingRoomState c2PaintingCmd = some (s2,
        ["Dropped.", "The painting is now in the trophy case."]) ∧
      s2.treasures_deposited = 1 ∧ s2.score = 4 ∧
      aget s2.objects "painting" =
        some { (aget c2LivingRoomState.objects "painting").getD {id := "", name := ""} with
          location := some "case" } := by
  have h := c2_deposit_increments_each_time c2LivingRoomState c2PaintingCmd
    "painting" ((aget c2LivingRoomState.objects "painting").getD {id := "", name := ""})
    ((aget c2LivingRoomState.objects "case").getD {id := "", name := ""})
    rfl (by decide) rfl rfl rfl (by decide) rfl rfl
  exact h

/-- C2 counterexample: the claim says score and counter rise exactly
once over the whole game per treasure; depositing the painting,
taking it back out of the case, and depositing it again leaves the
deposited-treasure counter at 2 and the score at 12 (4 for each
deposit plus 4 for the re-take), not 4. -/
theorem c2_redeposit_counterexample :
    c2DepositTwice.map (fun s => (s.treasures_deposited, s.score)) = some (2, 12) ∧
    (aget initState.objects "painting").map (fun o => o.value) = some 4 ∧
    (2 : Nat) ≠ 1 := by
  refine ⟨?_, rfl, by decide⟩
  rfl

/-- C8: opening a door-type object whose LOCKED flag is set (and which
is not already open) fails with the locked message and changes nothing;
unlocking the grating with the skeleton key in inventory (once the
grating has been revealed) succeeds, clears its LOCKED flag, sets the
grating-unlocked world flag, and adds the up exit from the grating
room to the clearing to the room graph. -/
theorem c8_locked_door_and_unlock :
    (∀ (s : GameState) (command : ParsedCommand) (obj_id : String) (obj : GameObject),
      command.direct_object = some obj_id →
      obj_id ≠ "window" → obj_id ≠ "jeweled_egg" →
      aget s.objects obj_id = some obj →
      hasFlag obj.flags ObjectFlag.DOOR = true →
      hasFlag obj.flags ObjectFlag.OPEN = false →
      hasFlag obj.flags ObjectFlag.LOCKED = true →
      _open s command = some (s, ["It\x27s locked."])) ∧
    (∀ (s : GameState) (command : ParsedCommand) (grating : GameObject) (gr : Room),
      command.direct_object = some "grating" →
      aget s.objects "grating" = some grating →
      grating.location ≠ none →
      "skeleton_key" ∈ s.player_inventory →
      aget s.rooms "grating_room" = some gr →
      ∃ s2, _unlock s command = some (s2, ["The grating is unlocked."]) ∧
        s2.grating_unlocked = true ∧
        aget s2.objects "grating" =
          some { grating with flags := clearFlagBit grating.flags ObjectFlag.LOCKED } ∧
        ∃ gr2, aget s2.rooms "grating_room" = some gr2 ∧
          dget gr2.exits Direction.UP = some "clearing") := by
  constructor
  · intro s command obj_id obj hcmd hw he hobj hdoor hopen hlock
    have hwb : (obj_id == "window") = false := by simpa using hw
    have heb : (obj_id == "jeweled_egg") = false := by simpa using he
    simp only [_open, hcmd, hobj, hwb, heb, Bool.false_eq_true, if_false,
      hdoor, hopen, hlock, Bool.or_true, Bool.not_true, ite_true, ite_false]
  · intro s command grating gr hcmd hobj hloc hkey hroom
    have hk : s.player_inventory.contains "skeleton_key" = true := by simpa using hkey
    refine ⟨{ s with
        grating_unlocked := true
        objects := amod s.objects "grating"
          (fun o => { o with flags := clearFlagBit o.flags ObjectFlag.LOCKED })
        rooms := amod s.rooms "grating_room"
          (fun r => { r with exits := dput r.exits Direction.UP "clearing" }) },
      ?_, rfl, ?_, ?_⟩
    · simp only [_unlock, hcmd, hobj, hloc, hk, hroom, ite_true,
        ne_eq, not_false_eq_true, if_true]
      rfl
    · rw [show (_ : GameState).objects = amod s.objects "grating"
        (fun o => { o with flags := clearFlagBit o.flags ObjectFlag.LOCKED }) from rfl]
      rw [aget_amod_self, hobj]
      rfl
    · refine ⟨{ gr with exits := dput gr.exits Direction.UP "clearing" }, ?_, ?_⟩
      · rw [show (_ : GameState).rooms = amod s.rooms "grating_room"
          (fun r => { r with exits := dput r.exits Direction.UP "clearing" }) from rfl]
        rw [aget_amod_self, hroom]
        rfl
      · exact dget_dput gr.exits Direction.UP "clearing"

/-- Witness for C8: opening the (hidden, locked) grating in the
initial state fails with the locked message and changes nothing; with the
grating revealed in the clearing and the skeleton key carried,
unlocking it succeeds and sets the grating-unlocked flag. -/
theorem c8_locked_door_and_unlock_witness :
    _open initState c8GratingCmd = some (initState, ["It\x27s locked."]) ∧
    ∃ s2, _unlock c8KeyState c8GratingCmd = some (s2, ["The grating is unlocked."]) ∧
      s2.grating_unlocked = true := by
  constructor
  · exact c8_locked_door_and_unlock.1 initState c8GratingCmd "grating"
      ((aget initState.objects "grating").getD { id := "", name := "" })
      rfl (by decide) (by decide) rfl rfl rfl rfl
  · obtain ⟨s2, h1, h2, _⟩ := c8_locked_door_and_unlock.2 c8KeyState c8GratingCmd
      ((aget c8KeyState.objects "grating").getD { id := "", name := "" })
      ((aget c8KeyState.rooms "grating_room").getD { id := "", name := "" })
      rfl rfl (by decide) (by decide) rfl
    exact ⟨s2, h1, h2⟩

/-- C6: `_is_visible` returns true exactly when the object is in the
inventory, or lies in the current room, or its immediate parent is a
container that is open or transparent and itself lies in the current
room or the inventory — a single-hop rule, so objects in closed
opaque containers, or nested two containers deep, are not visible. -/
theorem c6_is_visible_iff (s : GameState) (obj_id : String) (obj : GameObject)
    (hobj : aget s.objects obj_id = some obj)
    (hempty : aget s.objects "" = none) :
    _is_visible s obj_id = true ↔
      (obj_id ∈ s.player_inventory ∨
       obj.location = some s.current_room ∨
       ∃ loc container, obj.location = some loc ∧
         aget s.objects loc = some container ∧
         hasFlag container.flags ObjectFlag.CONTAINER = true ∧
         (hasFlag container.flags ObjectFlag.OPEN = true ∨
          hasFlag container.flags ObjectFlag.TRANSPARENT = true) ∧
         (container.location = some s.current_room ∨
          container.id ∈ s.player_inventory)) := by
  by_cases h1 : obj_id ∈ s.player_inventory
  · have h1b : s.player_inventory.contains obj_id = true := by simpa using h1
    simp [_is_visible, hobj, h1b, h1]
  · have h1b : s.player_inventory.contains obj_id = false := by simpa using h1
    by_cases h2 : obj.location = some s.current_room
    · have h2b : (obj.location == some s.current_room) = true := by simpa using h2
      simp [_is_visible, hobj, h1b, h2b, h1, h2]
    · have h2b : (obj.location == some s.current_room) = false := by simpa using h2
      rcases hloc : obj.location with _ | loc
      · simp [_is_visible, hobj, h1b, h2b, hloc, h1, h2]
      · by_cases h3 : loc = ""
        · subst h3
          simp [_is_visible, hobj, h1b, h2b, hloc, hempty, h1, h2]
        · rcases hcont : aget s.objects loc with _ | container
          · simp [_is_visible, hobj, h1b, h2b, hloc, h3, hcont, h1, h2]
          · simp [_is_visible, hobj, h1b, h2b, hloc, h3, hcont, h1, h2]

/-- Witness for C6: the mailbox, standing in the starting room, is
visible in the initial state. -/
theorem c6_is_visible_iff_witness : _is_visible initState "mailbox" = true := by
  have h : aget initState.objects "mailbox" = some
      ((aget initState.objects "mailbox").getD { id := "", name := "" }) := rfl
  exact (c6_is_visible_iff initState "mailbox" _ h rfl).mpr (Or.inr (Or.inl rfl))


/-- C7: a fatal event prints the death message and banner, increments
the death counter by exactly one, moves every carried object to the
room where death occurred leaving the inventory empty, resets the
location to the fixed starting room west_of_house and prints the
transition lines and the arrival text (the room name heads the look
output); the handler always returns and leaves the game-over flag
untouched, so death never terminates play. -/
theorem c7_death_respawn (s : GameState) (m : String) (r : Room)
    (hinv : ∀ oid ∈ s.player_inventory, (aget s.objects oid).isSome)
    (hroom : aget s.rooms "west_of_house" = some r)
    (hlit : hasFlag r.flags RoomFlag.LIT = true)
    (hlv : (aget s.objects "leaves").isSome) :
    ∃ s2 rest,
      _death s m = some (s2, m ::
        "\n    ****  You have died  ****\n" ::
        "As you take your last breath, you feel yourself being pulled from your body." ::
        "You float upward, watching your corpse below. Suddenly, you find yourself..." ::
        "" :: r.name :: rest) ∧
      s2.deaths = s.deaths + 1 ∧
      s2.player_inventory = [] ∧
      s2.current_room = "west_of_house" ∧
      s2.game_over = s.game_over ∧
      s2.score = s.score ∧
      (∀ oid ∈ s.player_inventory,
        aget s2.objects oid = (aget s.objects oid).map (deathRelocate s.current_room)) := by
  obtain ⟨objs2, hd, hmem, hnot⟩ :=
    deathDropAll_spec s.current_room s.player_inventory s.objects hinv
  have hlv2 : (aget objs2 "leaves").isSome := by
    by_cases hml : "leaves" ∈ s.player_inventory
    · rw [hmem "leaves" hml]
      rcases ho : aget s.objects "leaves" with _ | o
      · rw [ho] at hlv; cases hlv
      · rfl
    · rw [hnot "leaves" hml]
      exact hlv
  obtain ⟨v, rest, hlook⟩ := look_lit
    { s with
      deaths := s.deaths + 1
      objects := objs2
      player_inventory := []
      current_room := "west_of_house" } r hroom hlit hlv2
  refine ⟨{ s with
      deaths := s.deaths + 1
      objects := objs2
      player_inventory := []
      current_room := "west_of_house"
      visited_rooms := v }, rest, ?_, rfl, rfl, rfl, rfl, rfl, ?_⟩
  · simp only [_death, hd, hlook]
  · intro oid hm
    exact hmem oid hm

/-- Witness for C7 at the cellar state carrying the welcome mat. -/
theorem c7_death_respawn_witness :
    ∃ s2 rest,
      _death c7CellarState "You have died." = some (s2, "You have died." ::
        "\n    ****  You have died  ****\n" ::
        "As you take your last breath, you feel yourself being pulled from your body." ::
        "You float upward, watching your corpse below. Suddenly, you find yourself..." ::
        "" :: "West of House" :: rest) ∧
      s2.deaths = 1 ∧
      s2.player_inventory = [] ∧
      s2.current_room = "west_of_house" ∧
      aget s2.objects "mat" =
        (aget c7CellarState.objects "mat").map (deathRelocate "cellar") := by
  obtain ⟨s2, rest, h1, h2, h3, h4, _, _, h7⟩ :=
    c7_death_respawn c7CellarState "You have died." westOfHouseRoom
      (by decide) rfl rfl rfl
  exact ⟨s2, rest, h1, h2, h3, h4, h7 "mat" (by decide)⟩

/-- C3: saving and then restoring the same logical save record in the
same session reproduces the observable state: the current room, the
inventory in order, the score, the move count, every world flag, and
every object and actor record (hence all object locations and flags)
are as before the round trip. -/
theorem c3_save_restore_roundtrip (s : GameState)
    (hobj : (s.objects.map Prod.fst).Nodup)
    (hact : (s.actors.map Prod.fst).Nodup)
    (hr : (aget s.rooms s.current_room).isSome)
    (hinv : ∀ oid ∈ s.player_inventory, (aget s.objects oid).isSome)
    (hlv : (aget s.objects "leaves").isSome) :
    ∃ s2 out, _restore (RestoreInput.fileData (saveData s)) s = some (s2, out) ∧
      s2.current_room = s.current_room ∧
      s2.player_inventory = s.player_inventory ∧
      s2.score = s.score ∧
      s2.moves = s.moves ∧
      s2.deaths = s.deaths ∧
      s2.player_name = s.player_name ∧
      s2.lamp_on = s.lamp_on ∧
      s2.lamp_life = s.lamp_life ∧
      s2.grating_unlocked = s.grating_unlocked ∧
      s2.trap_door_open = s.trap_door_open ∧
      s2.rainbow_solid = s.rainbow_solid ∧
      s2.dam_open = s.dam_open ∧
      s2.loud_room_level = s.loud_room_level ∧
      s2.coffin_open = s.coffin_open ∧
      s2.bell_rung = s.bell_rung ∧
      s2.candles_lit = s.candles_lit ∧
      s2.book_read = s.book_read ∧
      s2.spirits_released = s.spirits_released ∧
      s2.cyclops_fled = s.cyclops_fled ∧
      s2.mirror_broken = s.mirror_broken ∧
      s2.troll_payment = s.troll_payment ∧
      s2.thief_here = s.thief_here ∧
      s2.treasures_deposited = s.treasures_deposited ∧
      s2.objects = s.objects ∧
      s2.actors = s.actors := by
  have hra := restoreAssign_roundtrip s hobj hact
  obtain ⟨v, out, hlook⟩ := look_visited_only s hr hinv hlv
  refine ⟨{ s with visited_rooms := v }, "Game restored." :: out, ?_, rfl, rfl, rfl,
    rfl, rfl, rfl, rfl, rfl, rfl, rfl, rfl, rfl, rfl, rfl, rfl, rfl, rfl, rfl, rfl,
    rfl, rfl, rfl, rfl, rfl, rfl⟩
  simp only [_restore, hra, hlook]

/-- Witness for C3 at the initial state. -/
theorem c3_save_restore_roundtrip_witness :
    ∃ s2 out, _restore (RestoreInput.fileData (saveData initState)) initState =
        some (s2, out) ∧
      s2.current_room = initState.current_room ∧
      s2.score = initState.score ∧
      s2.objects = initState.objects := by
  obtain ⟨s2, out, h1, h2, _, h3, hrest⟩ :=
    c3_save_restore_roundtrip initState (by decide) (by decide) (by decide)
      (by decide) (by decide)
  exact ⟨s2, out, h1, h2, h3, hrest.2.2.2.2.2.2.2.2.2.2.2.2.2.2.2.2.2.2.2.2.1⟩

/-- C4 (amended): a restore that fails before any assignment leaves
the state unchanged — a missing file, with its own message distinct
from the generic failure message, or an unparseable file; a parseable
save missing any optional (newer) field loads with that field
defaulted.  (The counterexample shows the part of the original claim
this drops: a parseable save missing a required field fails after
partially mutating the state.) -/
theorem c4_restore_failure_amended :
    (∀ s : GameState, _restore RestoreInput.noFile s =
      some (s, ["Restore failed. File not found."])) ∧
    (∀ (s : GameState) (msg : String), _restore (RestoreInput.badJson msg) s =
      some (s, ["Restore failed: " ++ msg])) ∧
    (∀ msg : String,
      ("Restore failed: " ++ msg : String) ≠ "Restore failed. File not found.") ∧
    (∀ (s : GameState) (raw : RawSave) (cr : String) (inv vis : List String)
        (sc mv : Nat) (lo : Bool) (objSaves : List (String × ObjSave)),
      raw.current_room = some cr → raw.inventory = some inv → raw.score = some sc →
      raw.moves = some mv → raw.visited_rooms = some vis → raw.lamp_on = some lo →
      raw.objects = some objSaves →
      ∃ s2, restoreAssign raw s = (s2, none) ∧
        s2.player_name = raw.player_name.getD "Adventurer" ∧
        s2.deaths = raw.deaths.getD 0 ∧
        s2.lamp_life = raw.lamp_life.getD 330 ∧
        s2.grating_unlocked = raw.grating_unlocked.getD false ∧
        s2.trap_door_open = raw.trap_door_open.getD false ∧
        s2.rainbow_solid = raw.rainbow_solid.getD false ∧
        s2.dam_open = raw.dam_open.getD false ∧
        s2.loud_room_level = raw.loud_room_level.getD 4 ∧
        s2.coffin_open = raw.coffin_open.getD false ∧
        s2.bell_rung = raw.bell_rung.getD false ∧
        s2.candles_lit = raw.candles_lit.getD false ∧
        s2.book_read = raw.book_read.getD false ∧
        s2.spirits_released = raw.spirits_released.getD false ∧
        s2.cyclops_fled = raw.cyclops_fled.getD false ∧
        s2.mirror_broken = raw.mirror_broken.getD false ∧
        s2.troll_payment = raw.troll_payment.getD false ∧
        s2.thief_here = raw.thief_here.getD false ∧
        s2.treasures_deposited = raw.treasures_deposited.getD 0 ∧
        s2.actors = restoreActorLoop s.actors (raw.actors.getD [])) := by
  refine ⟨fun s => rfl, fun s msg => rfl, ?_, ?_⟩
  · intro msg h
    have h2 := congrArg String.data h
    rw [String.data_append] at h2
    have h3 := congrArg (List.take 16) h2
    rw [List.take_left' (by decide)] at h3
    exact absurd h3 (by decide)
  · intro s raw cr inv sc mv vis lo objSaves hcr hinv hsc hmv hvis hlo hobjs
    simp only [restoreAssign, hcr, hinv, hsc, hmv, hvis, hlo, hobjs]
    exact ⟨_, rfl, rfl, rfl, rfl, rfl, rfl, rfl, rfl, rfl, rfl, rfl, rfl, rfl,
      rfl, rfl, rfl, rfl, rfl, rfl, rfl⟩

/-- Witness for the amended C4 statement: the no-file case on the
initial state, and a minimal well-formed save whose optional fields
all default. -/
theorem c4_restore_failure_amended_witness :
    _restore RestoreInput.noFile initState =
      some (initState, ["Restore failed. File not found."]) ∧
    ∃ s2, restoreAssign c4MinimalSave initState = (s2, none) ∧
      s2.deaths = 0 ∧ s2.lamp_life = 330 ∧ s2.treasures_deposited = 0 := by
  refine ⟨c4_restore_failure_amended.1 initState, ?_⟩
  obtain ⟨s2, h1, _, h2, h3, hrest⟩ :=
    c4_restore_failure_amended.2.2.2 initState c4MinimalSave "kitchen" [] [] 0 0
      false [] rfl rfl rfl rfl rfl rfl rfl
  exact ⟨s2, h1, h2, h3,
    hrest.2.2.2.2.2.2.2.2.2.2.2.2.2.2.1⟩

/-- C4 counterexample: the claim says a failed restore leaves the
in-memory state exactly as before, but restoring a parseable save
that contains only a current room ("kitchen") fails on the missing
required key "inventory" after the current room has already been
overwritten: the state after the failed restore is in the kitchen,
not back at west_of_house. -/
theorem c4_partial_restore_counterexample :
    _restore (RestoreInput.fileData c4BadSave) initState =
      some ({ initState with current_room := "kitchen" },
        ["Restore failed: \x27inventory\x27"]) ∧
    initState.current_room = "west_of_house" ∧
    ("kitchen" : String) ≠ "west_of_house" := by
  refine ⟨?_, rfl, by decide⟩
  rfl
